import Mathlib

/-!
Shallow embedding of the grida-canvas node model and ingestion pipeline
(`crates/grida-canvas/src/node/schema.rs`, `node/factory.rs`, `io/io_json.rs`).

Rust `f32` scalars are modelled as exact rationals `ℚ`; the derived polygon
geometry, which uses trigonometry, is carried out over `ℝ`.  Fallible Rust
code (deserialization errors, panics on out-of-range indexing, assertion
failures) is modelled by `Option`, with `none` standing for the failure.
-/

namespace Grida

/-- Modelled from the spec: `math2::transform::AffineTransform` lives outside
the sources in scope.  The code here constructs transforms in exactly three
ways — the identity, `new(left, top, rotation)`, and from a raw 2×3 gradient
matrix — so the model records which constructor was used with its inputs. -/
inductive AffineTransform where
  | identity
  | new (left top rotation : ℚ)
  | matrix (m : List (List ℚ))
deriving DecidableEq

/-- Modelled from the spec: `math2::box_fit::BoxFit` (outside the sources in
scope) is an image fit mode; no code in scope ever constructs one. -/
inductive BoxFit where
  | contain
  | cover
  | fill
  | none
deriving DecidableEq

/-- `schema.rs`: `pub struct Color(pub u8, pub u8, pub u8, pub u8)`. -/
structure Color where
  r : ℕ
  g : ℕ
  b : ℕ
  a : ℕ
deriving DecidableEq

/-- `schema.rs`: stroke alignment enum. -/
inductive StrokeAlign where
  | Inside
  | Center
  | Outside
deriving DecidableEq

/-- `schema.rs`: blend mode enum (17 members). -/
inductive BlendMode where
  | Normal
  | Multiply
  | Screen
  | Overlay
  | Darken
  | Lighten
  | ColorDodge
  | ColorBurn
  | HardLight
  | SoftLight
  | Difference
  | Exclusion
  | Hue
  | Saturation
  | Color
  | Luminosity
  | PassThrough
deriving DecidableEq

/-- `schema.rs`: `FeBackdropBlur`. -/
structure FeBackdropBlur where
  radius : ℚ
deriving DecidableEq

/-- `schema.rs`: `FeDropShadow`. -/
structure FeDropShadow where
  dx : ℚ
  dy : ℚ
  blur : ℚ
  color : Color
deriving DecidableEq

/-- `schema.rs`: `FeGaussianBlur`. -/
structure FeGaussianBlur where
  radius : ℚ
deriving DecidableEq

/-- `schema.rs`: filter effect enum. -/
inductive FilterEffect where
  | DropShadow (fe : FeDropShadow)
  | GaussianBlur (fe : FeGaussianBlur)
  | BackdropBlur (fe : FeBackdropBlur)
deriving DecidableEq

/-- `schema.rs`: `TextTransform`. -/
inductive TextTransform where
  | None
  | Uppercase
  | Lowercase
  | Capitalize
deriving DecidableEq

/-- `schema.rs`: `TextDecoration`. -/
inductive TextDecoration where
  | None
  | Underline
  | Overline
  | LineThrough
deriving DecidableEq

/-- `schema.rs`: `TextAlign`. -/
inductive TextAlign where
  | Left
  | Right
  | Center
  | Justify
deriving DecidableEq

/-- `schema.rs`: `TextAlignVertical`. -/
inductive TextAlignVertical where
  | Top
  | Center
  | Bottom
deriving DecidableEq

/-- `schema.rs`: `pub struct FontWeight(pub u32)`. -/
structure FontWeight where
  value : ℕ
deriving DecidableEq

/-- `schema.rs` `FontWeight::new`: asserts `value >= 1 && value <= 1000`,
aborting otherwise.  The abort is modelled by `none`. -/
def FontWeight.new (value : ℕ) : Option FontWeight :=
  if 1 ≤ value ∧ value ≤ 1000 then some ⟨value⟩ else none

/-- `schema.rs` `FontWeight::default`: `Self(400)` (no range check). -/
def FontWeight.default : FontWeight := ⟨400⟩

/-- `schema.rs`: `GradientStop`. -/
structure GradientStop where
  offset : ℚ
  color : Color
deriving DecidableEq

/-- `schema.rs`: `SolidPaint`. -/
structure SolidPaint where
  color : Color
  opacity : ℚ
deriving DecidableEq

/-- `schema.rs`: `LinearGradientPaint`. -/
structure LinearGradientPaint where
  transform : AffineTransform
  stops : List GradientStop
  opacity : ℚ
deriving DecidableEq

/-- `schema.rs`: `RadialGradientPaint`. -/
structure RadialGradientPaint where
  transform : AffineTransform
  stops : List GradientStop
  opacity : ℚ
deriving DecidableEq

/-- `schema.rs`: `ImagePaint`. -/
structure ImagePaint where
  transform : AffineTransform
  ref : String
  fit : BoxFit
  opacity : ℚ
deriving DecidableEq

/-- `schema.rs`: `Paint` enum. -/
inductive Paint where
  | Solid (p : SolidPaint)
  | LinearGradient (p : LinearGradientPaint)
  | RadialGradient (p : RadialGradientPaint)
  | Image (p : ImagePaint)
deriving DecidableEq

/-- `schema.rs`: a 2D point; coordinates over `ℝ` because derived polygon
geometry is trigonometric. -/
structure Point where
  x : ℝ
  y : ℝ

/-- `schema.rs`: `Size`. -/
structure Size where
  width : ℚ
  height : ℚ
deriving DecidableEq

/-- `schema.rs`: `RectangularCornerRadius`. -/
structure RectangularCornerRadius where
  tl : ℚ
  tr : ℚ
  bl : ℚ
  br : ℚ
deriving DecidableEq

def RectangularCornerRadius.all (value : ℚ) : RectangularCornerRadius :=
  ⟨value, value, value, value⟩

def RectangularCornerRadius.zero : RectangularCornerRadius :=
  RectangularCornerRadius.all 0

def RectangularCornerRadius.is_zero (r : RectangularCornerRadius) : Bool :=
  r.tl = 0 ∧ r.tr = 0 ∧ r.bl = 0 ∧ r.br = 0

def RectangularCornerRadius.is_uniform (r : RectangularCornerRadius) : Bool :=
  r.tl = r.tr ∧ r.tl = r.bl ∧ r.tl = r.br

abbrev NodeId := String

/-- `schema.rs`: `BaseNode`. -/
structure BaseNode where
  id : NodeId
  name : String
  active : Bool
deriving DecidableEq

/-- `schema.rs`: `ErrorNode`. -/
structure ErrorNode where
  base : BaseNode
  transform : AffineTransform
  size : Size
  error : String
  opacity : ℚ
deriving DecidableEq

/-- `schema.rs`: `GroupNode`. -/
structure GroupNode where
  base : BaseNode
  transform : AffineTransform
  children : List NodeId
  opacity : ℚ
  blend_mode : BlendMode
deriving DecidableEq

/-- `schema.rs`: `ContainerNode`. -/
structure ContainerNode where
  base : BaseNode
  transform : AffineTransform
  size : Size
  corner_radius : RectangularCornerRadius
  children : List NodeId
  fill : Paint
  stroke : Option Paint
  stroke_width : ℚ
  stroke_align : StrokeAlign
  stroke_dash_array : Option (List ℚ)
  opacity : ℚ
  blend_mode : BlendMode
  effect : Option FilterEffect
  clip : Bool
deriving DecidableEq

/-- `schema.rs`: `RectangleNode`. -/
structure RectangleNode where
  base : BaseNode
  transform : AffineTransform
  size : Size
  corner_radius : RectangularCornerRadius
  fill : Paint
  stroke : Paint
  stroke_width : ℚ
  stroke_align : StrokeAlign
  stroke_dash_array : Option (List ℚ)
  opacity : ℚ
  blend_mode : BlendMode
  effect : Option FilterEffect
deriving DecidableEq

/-- `schema.rs`: `LineNode` (height always 0; the stored stroke align is kept
in `_data_stroke_align` and ignored by `get_stroke_align`). -/
structure LineNode where
  base : BaseNode
  transform : AffineTransform
  size : Size
  stroke : Paint
  stroke_width : ℚ
  _data_stroke_align : StrokeAlign
  stroke_dash_array : Option (List ℚ)
  opacity : ℚ
  blend_mode : BlendMode
deriving DecidableEq

/-- `schema.rs` `LineNode::get_stroke_align`: always `Center`. -/
def LineNode.get_stroke_align (_node : LineNode) : StrokeAlign :=
  StrokeAlign.Center

/-- `schema.rs`: `ImageNode`. -/
structure ImageNode where
  base : BaseNode
  transform : AffineTransform
  size : Size
  corner_radius : RectangularCornerRadius
  fill : Paint
  stroke : Paint
  stroke_width : ℚ
  stroke_align : StrokeAlign
  stroke_dash_array : Option (List ℚ)
  opacity : ℚ
  blend_mode : BlendMode
  effect : Option FilterEffect
  ref : String
deriving DecidableEq

/-- `schema.rs`: `EllipseNode`. -/
structure EllipseNode where
  base : BaseNode
  transform : AffineTransform
  size : Size
  fill : Paint
  stroke : Paint
  stroke_width : ℚ
  stroke_align : StrokeAlign
  stroke_dash_array : Option (List ℚ)
  opacity : ℚ
  blend_mode : BlendMode
  effect : Option FilterEffect
deriving DecidableEq

/-- `schema.rs`: `BooleanPathOperation`. -/
inductive BooleanPathOperation where
  | Union
  | Intersection
  | Difference
  | Xor
deriving DecidableEq

/-- `schema.rs`: `BooleanPathOperationNode`. -/
structure BooleanPathOperationNode where
  base : BaseNode
  transform : AffineTransform
  op : BooleanPathOperation
  children : List NodeId
  fill : Paint
  stroke : Option Paint
  stroke_width : ℚ
  stroke_align : StrokeAlign
  stroke_dash_array : Option (List ℚ)
  opacity : ℚ
  blend_mode : BlendMode
  effect : Option FilterEffect
deriving DecidableEq

/-- `schema.rs`: `PathNode` (opaque SVG path-data string). -/
structure PathNode where
  base : BaseNode
  transform : AffineTransform
  fill : Paint
  data : String
  stroke : Paint
  stroke_width : ℚ
  stroke_align : StrokeAlign
  stroke_dash_array : Option (List ℚ)
  opacity : ℚ
  blend_mode : BlendMode
  effect : Option FilterEffect
deriving DecidableEq

/-- `schema.rs`: `PolygonNode` (concrete point list). -/
structure PolygonNode where
  base : BaseNode
  transform : AffineTransform
  points : List Point
  corner_radius : ℚ
  fill : Paint
  stroke : Paint
  stroke_width : ℚ
  stroke_align : StrokeAlign
  opacity : ℚ
  blend_mode : BlendMode
  effect : Option FilterEffect
  stroke_dash_array : Option (List ℚ)

/-- `schema.rs`: `RegularPolygonNode` (parametric; vertices recomputed). -/
structure RegularPolygonNode where
  base : BaseNode
  transform : AffineTransform
  size : Size
  point_count : ℕ
  corner_radius : ℚ
  fill : Paint
  stroke : Paint
  stroke_width : ℚ
  stroke_align : StrokeAlign
  opacity : ℚ
  blend_mode : BlendMode
  effect : Option FilterEffect
  stroke_dash_array : Option (List ℚ)

/-- `schema.rs`: `RegularStarPolygonNode`. -/
structure RegularStarPolygonNode where
  base : BaseNode
  transform : AffineTransform
  size : Size
  point_count : ℕ
  inner_radius : ℚ
  corner_radius : ℚ
  fill : Paint
  stroke : Paint
  stroke_width : ℚ
  stroke_align : StrokeAlign
  opacity : ℚ
  blend_mode : BlendMode
  effect : Option FilterEffect
  stroke_dash_array : Option (List ℚ)

/-- `schema.rs`: `TextStyle`. -/
structure TextStyle where
  text_decoration : TextDecoration
  font_family : String
  font_size : ℚ
  font_weight : FontWeight
  italic : Bool
  letter_spacing : Option ℚ
  line_height : Option ℚ
  text_transform : TextTransform
deriving DecidableEq

/-- `schema.rs`: `TextSpanNode`. -/
structure TextSpanNode where
  base : BaseNode
  transform : AffineTransform
  size : Size
  text : String
  text_style : TextStyle
  text_align : TextAlign
  text_align_vertical : TextAlignVertical
  fill : Paint
  stroke : Option Paint
  stroke_width : Option ℚ
  stroke_align : StrokeAlign
  opacity : ℚ
  blend_mode : BlendMode
deriving DecidableEq

/-- `schema.rs`: the closed `Node` variant set. -/
inductive Node where
  | Error (n : ErrorNode)
  | Group (n : GroupNode)
  | Container (n : ContainerNode)
  | Rectangle (n : RectangleNode)
  | Ellipse (n : EllipseNode)
  | Polygon (n : PolygonNode)
  | RegularPolygon (n : RegularPolygonNode)
  | RegularStarPolygon (n : RegularStarPolygonNode)
  | Line (n : LineNode)
  | TextSpan (n : TextSpanNode)
  | Path (n : PathNode)
  | BooleanOperation (n : BooleanPathOperationNode)
  | Image (n : ImageNode)

/-- `schema.rs` `NodeTrait::id` for `Node`. -/
def Node.id : Node → NodeId
  | .Error n => n.base.id
  | .Group n => n.base.id
  | .Container n => n.base.id
  | .Rectangle n => n.base.id
  | .Ellipse n => n.base.id
  | .Polygon n => n.base.id
  | .RegularPolygon n => n.base.id
  | .RegularStarPolygon n => n.base.id
  | .Line n => n.base.id
  | .TextSpan n => n.base.id
  | .Path n => n.base.id
  | .BooleanOperation n => n.base.id
  | .Image n => n.base.id

/-- `schema.rs` `NodeTrait::name` for `Node`. -/
def Node.name : Node → String
  | .Error n => n.base.name
  | .Group n => n.base.name
  | .Container n => n.base.name
  | .Rectangle n => n.base.name
  | .Ellipse n => n.base.name
  | .Polygon n => n.base.name
  | .RegularPolygon n => n.base.name
  | .RegularStarPolygon n => n.base.name
  | .Line n => n.base.name
  | .TextSpan n => n.base.name
  | .Path n => n.base.name
  | .BooleanOperation n => n.base.name
  | .Image n => n.base.name

/-! ## Derived geometry engine (`schema.rs`): `to_polygon` -/

/-- `RegularPolygonNode::to_polygon` (`schema.rs`): tessellates the parametric
regular polygon into a concrete `PolygonNode`.  The `f32` trigonometry of the
source is carried out over `ℝ`. -/
noncomputable def RegularPolygonNode.to_polygon (node : RegularPolygonNode) : PolygonNode :=
  let w := node.size.width
  let h := node.size.height
  let cx := w / 2
  let cy := h / 2
  let r := min w h / 2
  let angle_offset : ℝ :=
    if node.point_count % 2 = 0 then Real.pi / node.point_count
    else -(Real.pi / 2)
  let points : List Point :=
    (List.range node.point_count).map fun (i : ℕ) =>
      let theta : ℝ :=
        (i : ℝ) / (node.point_count : ℝ) * 2 * Real.pi + angle_offset
      { x := (cx : ℝ) + (r : ℝ) * Real.cos theta
        y := (cy : ℝ) + (r : ℝ) * Real.sin theta }
  { base := node.base
    transform := node.transform
    points := points
    corner_radius := node.corner_radius
    fill := node.fill
    stroke := node.stroke
    stroke_width := node.stroke_width
    stroke_align := node.stroke_align
    opacity := node.opacity
    blend_mode := node.blend_mode
    effect := node.effect
    stroke_dash_array := node.stroke_dash_array }

/-- `RegularStarPolygonNode::to_polygon` (`schema.rs`): tessellates the star
into `2 * point_count` alternating outer/inner points. -/
noncomputable def RegularStarPolygonNode.to_polygon (node : RegularStarPolygonNode) : PolygonNode :=
  let w := node.size.width
  let h := node.size.height
  let cx := w / 2
  let cy := h / 2
  let outer_r := min cx cy
  let inner_r := outer_r * node.inner_radius
  let step : ℝ := Real.pi / node.point_count
  let start_angle : ℝ := -(Real.pi / 2)
  let points : List Point :=
    (List.range (node.point_count * 2)).map fun (i : ℕ) =>
      let angle := start_angle + (i : ℝ) * step
      let r : ℚ := if i % 2 = 0 then outer_r else inner_r
      { x := (cx : ℝ) + (r : ℝ) * Real.cos angle
        y := (cy : ℝ) + (r : ℝ) * Real.sin angle }
  { base := node.base
    transform := node.transform
    points := points
    corner_radius := node.corner_radius
    fill := node.fill
    stroke := node.stroke
    stroke_width := node.stroke_width
    stroke_align := node.stroke_align
    opacity := node.opacity
    blend_mode := node.blend_mode
    effect := node.effect
    stroke_dash_array := node.stroke_dash_array }

/-! ## Node factory (`factory.rs`)

The factory's `id()` draws a fresh random UUID; the generated identifier is
passed in as an explicit `id` argument to keep the model deterministic. -/

namespace NodeFactory

def DEFAULT_SIZE : Size := ⟨100, 100⟩

def DEFAULT_COLOR : Color := ⟨255, 255, 255, 255⟩

def DEFAULT_STROKE_COLOR : Color := ⟨0, 0, 0, 255⟩

def DEFAULT_STROKE_WIDTH : ℚ := 1

def DEFAULT_STROKE_ALIGN : StrokeAlign := StrokeAlign.Inside

def DEFAULT_OPACITY : ℚ := 1

def default_base_node (id : String) : BaseNode :=
  { id := id, name := "", active := true }

def default_solid_paint (color : Color) : Paint :=
  Paint.Solid { color := color, opacity := 1 }

def create_rectangle_node (id : String) : RectangleNode :=
  { base := default_base_node id
    transform := AffineTransform.identity
    size := DEFAULT_SIZE
    corner_radius := RectangularCornerRadius.zero
    fill := default_solid_paint DEFAULT_COLOR
    stroke := default_solid_paint DEFAULT_STROKE_COLOR
    stroke_width := DEFAULT_STROKE_WIDTH
    stroke_align := DEFAULT_STROKE_ALIGN
    stroke_dash_array := none
    opacity := DEFAULT_OPACITY
    blend_mode := BlendMode.Normal
    effect := none }

def create_ellipse_node (id : String) : EllipseNode :=
  { base := default_base_node id
    transform := AffineTransform.identity
    size := DEFAULT_SIZE
    fill := default_solid_paint DEFAULT_COLOR
    stroke := default_solid_paint DEFAULT_STROKE_COLOR
    stroke_width := DEFAULT_STROKE_WIDTH
    stroke_align := DEFAULT_STROKE_ALIGN
    stroke_dash_array := none
    opacity := DEFAULT_OPACITY
    blend_mode := BlendMode.Normal
    effect := none }

def create_line_node (id : String) : LineNode :=
  { base := default_base_node id
    transform := AffineTransform.identity
    size := { width := DEFAULT_SIZE.width, height := 0 }
    stroke := default_solid_paint DEFAULT_STROKE_COLOR
    stroke_width := DEFAULT_STROKE_WIDTH
    _data_stroke_align := DEFAULT_STROKE_ALIGN
    stroke_dash_array := none
    opacity := DEFAULT_OPACITY
    blend_mode := BlendMode.Normal }

def create_text_span_node (id : String) : TextSpanNode :=
  { base := default_base_node id
    transform := AffineTransform.identity
    size := { width := DEFAULT_SIZE.width, height := 20 }
    text := ""
    text_style :=
      { text_decoration := TextDecoration.None
        font_family := "Arial"
        font_size := 16
        font_weight := FontWeight.default
        italic := false
        letter_spacing := none
        line_height := none
        text_transform := TextTransform.None }
    text_align := TextAlign.Left
    text_align_vertical := TextAlignVertical.Top
    fill := default_solid_paint DEFAULT_STROKE_COLOR
    stroke := none
    stroke_width := none
    stroke_align := DEFAULT_STROKE_ALIGN
    opacity := DEFAULT_OPACITY
    blend_mode := BlendMode.Normal }

def create_group_node (id : String) : GroupNode :=
  { base := default_base_node id
    transform := AffineTransform.identity
    children := []
    opacity := DEFAULT_OPACITY
    blend_mode := BlendMode.Normal }

def create_container_node (id : String) : ContainerNode :=
  { base := default_base_node id
    transform := AffineTransform.identity
    size := DEFAULT_SIZE
    corner_radius := RectangularCornerRadius.zero
    children := []
    fill := default_solid_paint DEFAULT_COLOR
    stroke := none
    stroke_width := DEFAULT_STROKE_WIDTH
    stroke_align := DEFAULT_STROKE_ALIGN
    stroke_dash_array := none
    opacity := DEFAULT_OPACITY
    blend_mode := BlendMode.Normal
    effect := none
    clip := true }

def create_path_node (id : String) : PathNode :=
  { base := default_base_node id
    transform := AffineTransform.identity
    fill := default_solid_paint DEFAULT_COLOR
    data := ""
    stroke := default_solid_paint DEFAULT_STROKE_COLOR
    stroke_width := DEFAULT_STROKE_WIDTH
    stroke_align := DEFAULT_STROKE_ALIGN
    stroke_dash_array := none
    opacity := DEFAULT_OPACITY
    blend_mode := BlendMode.Normal
    effect := none }

def create_regular_polygon_node (id : String) : RegularPolygonNode :=
  { base := default_base_node id
    transform := AffineTransform.identity
    size := DEFAULT_SIZE
    point_count := 3
    corner_radius := 0
    fill := default_solid_paint DEFAULT_COLOR
    stroke := default_solid_paint DEFAULT_STROKE_COLOR
    stroke_width := DEFAULT_STROKE_WIDTH
    stroke_align := DEFAULT_STROKE_ALIGN
    stroke_dash_array := none
    opacity := DEFAULT_OPACITY
    blend_mode := BlendMode.Normal
    effect := none }

def create_regular_star_polygon_node (id : String) : RegularStarPolygonNode :=
  { base := default_base_node id
    transform := AffineTransform.identity
    size := DEFAULT_SIZE
    point_count := 5
    inner_radius := 2 / 5
    corner_radius := 0
    fill := default_solid_paint DEFAULT_COLOR
    stroke := default_solid_paint DEFAULT_STROKE_COLOR
    stroke_width := DEFAULT_STROKE_WIDTH
    stroke_align := DEFAULT_STROKE_ALIGN
    stroke_dash_array := none
    opacity := DEFAULT_OPACITY
    blend_mode := BlendMode.Normal
    effect := none }

def create_polygon_node (id : String) : PolygonNode :=
  { base := default_base_node id
    transform := AffineTransform.identity
    points := []
    corner_radius := 0
    fill := default_solid_paint DEFAULT_COLOR
    stroke := default_solid_paint DEFAULT_STROKE_COLOR
    stroke_width := DEFAULT_STROKE_WIDTH
    stroke_align := DEFAULT_STROKE_ALIGN
    stroke_dash_array := none
    opacity := DEFAULT_OPACITY
    blend_mode := BlendMode.Normal
    effect := none }

def create_image_node (id : String) : ImageNode :=
  { base := default_base_node id
    transform := AffineTransform.identity
    size := DEFAULT_SIZE
    corner_radius := RectangularCornerRadius.zero
    fill := default_solid_paint DEFAULT_COLOR
    stroke := default_solid_paint DEFAULT_STROKE_COLOR
    stroke_width := DEFAULT_STROKE_WIDTH
    stroke_align := DEFAULT_STROKE_ALIGN
    stroke_dash_array := none
    opacity := DEFAULT_OPACITY
    blend_mode := BlendMode.Normal
    effect := none
    ref := "" }

end NodeFactory

/-! ## Intermediate IO schema (`io_json.rs`) -/

/-- A JSON value (`serde_json::Value`); numbers are modelled as exact
rationals. -/
inductive JValue where
  | null
  | bool (b : Bool)
  | num (q : ℚ)
  | str (s : String)
  | arr (items : List JValue)
  | obj (fields : List (String × JValue))

/-- Field lookup in a JSON object. -/
def jLookup (fields : List (String × JValue)) (key : String) : Option JValue :=
  (fields.find? fun kv => kv.1 == key).map fun kv => kv.2

/-- `io_json.rs`: `IOVectorNetworkVertex { p: [f32; 2] }`. -/
structure IOVectorNetworkVertex where
  p : ℚ × ℚ
deriving DecidableEq

/-- `io_json.rs`: `IOVectorNetworkSegment { a, b: usize, ta, tb: [f32; 2] }`. -/
structure IOVectorNetworkSegment where
  a : ℕ
  b : ℕ
  ta : ℚ × ℚ
  tb : ℚ × ℚ
deriving DecidableEq

/-- `io_json.rs`: `IOVectorNetwork` (both lists default to empty). -/
structure IOVectorNetwork where
  vertices : List IOVectorNetworkVertex
  segments : List IOVectorNetworkSegment
deriving DecidableEq

/-- One command of the reconstructed path string: `move p` models the emitted
`M{x} {y}` record and `cubic c1 c2 p` models ` C{c1} {c2} {p}`. -/
inductive PathCmd where
  | move (p : ℚ × ℚ)
  | cubic (c1 c2 p : ℚ × ℚ)
deriving DecidableEq

/-- Componentwise vector addition (`a[0] + seg.ta[0]`, …). -/
def vadd (p q : ℚ × ℚ) : ℚ × ℚ := (p.1 + q.1, p.2 + q.2)

/-- The curve command emitted for one segment: the control points are the
endpoint vertices displaced by their tangents; panics on out-of-range vertex
indexing are modelled by `none`. -/
def segmentCmd (vn : IOVectorNetwork) (seg : IOVectorNetworkSegment) : Option PathCmd := do
  let a ← vn.vertices[seg.a]?
  let b ← vn.vertices[seg.b]?
  pure (PathCmd.cubic (vadd a.p seg.ta) (vadd b.p seg.tb) b.p)

/-- `io_json.rs` `vector_network_to_path`: the path is the emitted command
list; `none` models the Rust panic on an out-of-range vertex index.  An empty
vertex list short-circuits to the empty path. -/
def vector_network_to_path (vn : IOVectorNetwork) : Option (List PathCmd) :=
  if vn.vertices.isEmpty then some []
  else do
    let first ←
      match vn.segments.head? with
      | some s => (vn.vertices[s.a]?).map fun v => v.p
      | none => some ((0 : ℚ), (0 : ℚ))
    let rest ← vn.segments.mapM (segmentCmd vn)
    pure (PathCmd.move first :: rest)

/-- `io_json.rs`: `RGBA` (r, g, b as `u8`, a as `f32`). -/
structure RGBA where
  r : ℕ
  g : ℕ
  b : ℕ
  a : ℚ
deriving DecidableEq

/-- `io_json.rs`: `IOGradientStop`. -/
structure IOGradientStop where
  offset : ℚ
  color : RGBA
deriving DecidableEq

/-- `io_json.rs`: the externally tagged `Fill` enum of the IO schema. -/
inductive Fill where
  | Solid (color : Option RGBA)
  | LinearGradient (id : Option String) (transform : Option (List (List ℚ)))
      (stops : List IOGradientStop)
  | RadialGradient (id : Option String) (transform : Option (List (List ℚ)))
      (stops : List IOGradientStop)
deriving DecidableEq

/-- `io_json.rs`: `Border`. -/
structure Border where
  border_width : Option ℚ
  border_color : Option RGBA
  border_style : Option String
deriving DecidableEq

/-- `io_json.rs`: `IOPath` (an already-reconstructed path record). -/
structure IOPath where
  d : String
  fill_rule : String
  fill : String
deriving DecidableEq

/-- `io_json.rs`: `IOContainerNode`; `width`/`height` are captured as raw JSON
values because external documents may express them as sizing modes. -/
structure IOContainerNode where
  id : String
  name : String
  active : Bool
  locked : Bool
  opacity : ℚ
  rotation : ℚ
  z_index : ℤ
  position : Option String
  left : ℚ
  top : ℚ
  width : JValue
  height : JValue
  children : List String
  expanded : Option Bool
  fill : Option Fill
  border : Option Border
  style : Option (List (String × JValue))
  corner_radius : Option RectangularCornerRadius
  padding : Option JValue
  layout : Option String
  direction : Option String
  main_axis_alignment : Option String
  cross_axis_alignment : Option String
  main_axis_gap : Option ℚ
  cross_axis_gap : Option ℚ

/-- `io_json.rs`: `IOTextNode` (raw-valued `width`/`height`, like containers). -/
structure IOTextNode where
  id : String
  name : String
  active : Bool
  locked : Bool
  opacity : ℚ
  rotation : ℚ
  z_index : ℤ
  position : Option String
  left : ℚ
  top : ℚ
  right : Option ℚ
  bottom : Option ℚ
  width : JValue
  height : JValue
  fill : Option Fill
  style : Option (List (String × JValue))
  text : String
  text_align : TextAlign
  text_align_vertical : TextAlignVertical
  text_decoration : TextDecoration
  line_height : Option ℚ
  letter_spacing : Option ℚ
  font_size : Option ℚ
  font_family : Option String
  font_weight : FontWeight

/-- `io_json.rs`: `IOVectorNode` (numeric `width`/`height`). -/
structure IOVectorNode where
  id : String
  name : String
  active : Bool
  locked : Bool
  opacity : ℚ
  rotation : ℚ
  z_index : ℤ
  position : Option String
  left : ℚ
  top : ℚ
  width : ℚ
  height : ℚ
  fill : Option Fill
  paths : Option (List IOPath)

/-- `io_json.rs`: `IOPathNode` (numeric `width`/`height`). -/
structure IOPathNode where
  id : String
  name : String
  active : Bool
  locked : Bool
  opacity : ℚ
  rotation : ℚ
  z_index : ℤ
  position : Option String
  left : ℚ
  top : ℚ
  width : ℚ
  height : ℚ
  vector_network : Option IOVectorNetwork
  fill : Option Fill
  stroke_width : Option ℚ

/-- `io_json.rs`: `IOEllipseNode` (numeric `width`/`height`). -/
structure IOEllipseNode where
  id : String
  name : String
  active : Bool
  locked : Bool
  opacity : ℚ
  rotation : ℚ
  z_index : ℤ
  position : Option String
  left : ℚ
  top : ℚ
  width : ℚ
  height : ℚ
  fill : Option Fill
  stroke_width : Option ℚ
  stroke_cap : Option String
  effects : Option (List JValue)

/-- `io_json.rs`: `IORectangleNode` — note the strictly numeric `f32`
`width`/`height`, unlike containers and text nodes. -/
structure IORectangleNode where
  id : String
  name : String
  active : Bool
  locked : Bool
  opacity : ℚ
  rotation : ℚ
  z_index : ℤ
  position : Option String
  left : ℚ
  top : ℚ
  width : ℚ
  height : ℚ
  fill : Option Fill
  stroke_width : Option ℚ
  stroke_cap : Option String
  effects : Option (List JValue)
  corner_radius : Option RectangularCornerRadius

/-- `io_json.rs`: the internally tagged `IONode` enum; any unrecognized
`"type"` tag becomes the `Unknown` placeholder (the payload, including its
identifier, is discarded, mirroring `#[serde(other)]`). -/
inductive IONode where
  | Container (node : IOContainerNode)
  | Text (node : IOTextNode)
  | Vector (node : IOVectorNode)
  | Path (node : IOPathNode)
  | Ellipse (node : IOEllipseNode)
  | Rectangle (node : IORectangleNode)
  | Unknown

/-! ## Deserialization (`serde` semantics over `JValue`)

Each `decodeX` mirrors the derived `Deserialize` impl of the corresponding
Rust type: a required field must be present and well-typed, a field with a
`#[serde(default)]` falls back to its default when absent, and an `Option`
field is `none` when absent or `null`.  `none` at the outer level models a
deserialization error. -/

def decodeBool : JValue → Option Bool
  | .bool b => some b
  | _ => none

def decodeString : JValue → Option String
  | .str s => some s
  | _ => none

/-- An `f32` field: any JSON number. -/
def decodeF32 : JValue → Option ℚ
  | .num q => some q
  | _ => none

/-- An `i32` field: an integral number within the `i32` range. -/
def decodeI32 : JValue → Option ℤ
  | .num q =>
    if q.den = 1 ∧ -2147483648 ≤ q.num ∧ q.num ≤ 2147483647 then some q.num else none
  | _ => none

/-- A `u8` field: an integral number within the `u8` range. -/
def decodeU8 : JValue → Option ℕ
  | .num q => if q.den = 1 ∧ 0 ≤ q.num ∧ q.num ≤ 255 then some q.num.toNat else none
  | _ => none

/-- A `u32` field: an integral number within the `u32` range. -/
def decodeU32 : JValue → Option ℕ
  | .num q => if q.den = 1 ∧ 0 ≤ q.num ∧ q.num ≤ 4294967295 then some q.num.toNat else none
  | _ => none

/-- A `usize` field: an integral number within the 64-bit range. -/
def decodeUsize : JValue → Option ℕ
  | .num q =>
    if q.den = 1 ∧ 0 ≤ q.num ∧ q.num ≤ 18446744073709551615 then some q.num.toNat else none
  | _ => none

def decodeList (dec : JValue → Option α) : JValue → Option (List α)
  | .arr xs => xs.mapM dec
  | _ => none

/-- A `HashMap<String, Value>` field. -/
def decodeObj : JValue → Option (List (String × JValue))
  | .obj o => some o
  | _ => none

/-- A required struct field. -/
def reqField (o : List (String × JValue)) (key : String) (dec : JValue → Option α) :
    Option α :=
  (jLookup o key).bind dec

/-- A struct field with a `#[serde(default = …)]` fallback. -/
def dfltField (o : List (String × JValue)) (key : String) (dec : JValue → Option α)
    (d : α) : Option α :=
  match jLookup o key with
  | none => some d
  | some v => dec v

/-- An `Option<T>` struct field: absent or `null` is `none`. -/
def optField (o : List (String × JValue)) (key : String) (dec : JValue → Option α) :
    Option (Option α) :=
  match jLookup o key with
  | none => some none
  | some .null => some none
  | some v => (dec v).map some

/-- A `[f32; 2]` value. -/
def decodeVec2 : JValue → Option (ℚ × ℚ)
  | .arr [.num x, .num y] => some (x, y)
  | _ => none

/-- A `[[f32; 3]; 2]` value (gradient transform matrix). -/
def decodeMat23 : JValue → Option (List (List ℚ))
  | .arr [.arr [.num a, .num b, .num c], .arr [.num d, .num e, .num f]] =>
    some [[a, b, c], [d, e, f]]
  | _ => none

def decodeRGBA (v : JValue) : Option RGBA := do
  match v with
  | .obj o =>
    let r ← reqField o "r" decodeU8
    let g ← reqField o "g" decodeU8
    let b ← reqField o "b" decodeU8
    let a ← reqField o "a" decodeF32
    pure { r, g, b, a }
  | _ => none

def decodeIOGradientStop (v : JValue) : Option IOGradientStop := do
  match v with
  | .obj o =>
    let offset ← reqField o "offset" decodeF32
    let color ← reqField o "color" decodeRGBA
    pure { offset, color }
  | _ => none

/-- The internally tagged `Fill` enum (`"type"` one of `solid`,
`linear_gradient`, `radial_gradient`). -/
def decodeFill (v : JValue) : Option Fill := do
  match v with
  | .obj o =>
    match jLookup o "type" with
    | some (.str t) =>
      if t = "solid" then do
        let color ← optField o "color" decodeRGBA
        pure (Fill.Solid color)
      else if t = "linear_gradient" then do
        let id ← optField o "id" decodeString
        let transform ← optField o "transform" decodeMat23
        let stops ← reqField o "stops" (decodeList decodeIOGradientStop)
        pure (Fill.LinearGradient id transform stops)
      else if t = "radial_gradient" then do
        let id ← optField o "id" decodeString
        let transform ← optField o "transform" decodeMat23
        let stops ← reqField o "stops" (decodeList decodeIOGradientStop)
        pure (Fill.RadialGradient id transform stops)
      else none
    | _ => none
  | _ => none

def decodeBorder (v : JValue) : Option Border := do
  match v with
  | .obj o =>
    let border_width ← optField o "borderWidth" decodeF32
    let border_color ← optField o "borderColor" decodeRGBA
    let border_style ← optField o "borderStyle" decodeString
    pure { border_width, border_color, border_style }
  | _ => none

def decodeIOPath (v : JValue) : Option IOPath := do
  match v with
  | .obj o =>
    let d ← reqField o "d" decodeString
    let fill_rule ← reqField o "fillRule" decodeString
    let fill ← reqField o "fill" decodeString
    pure { d, fill_rule, fill }
  | _ => none

def decodeTextAlign (v : JValue) : Option TextAlign :=
  match v with
  | .str s =>
    if s = "left" then some .Left
    else if s = "right" then some .Right
    else if s = "center" then some .Center
    else if s = "justify" then some .Justify
    else none
  | _ => none

def decodeTextAlignVertical (v : JValue) : Option TextAlignVertical :=
  match v with
  | .str s =>
    if s = "top" then some .Top
    else if s = "center" then some .Center
    else if s = "bottom" then some .Bottom
    else none
  | _ => none

def decodeTextDecoration (v : JValue) : Option TextDecoration :=
  match v with
  | .str s =>
    if s = "none" then some .None
    else if s = "underline" then some .Underline
    else if s = "overline" then some .Overline
    else if s = "line-through" then some .LineThrough
    else none
  | _ => none

/-- `FontWeight`'s derived `Deserialize`: a raw `u32`, with no range check. -/
def decodeFontWeight (v : JValue) : Option FontWeight :=
  (decodeU32 v).map FontWeight.mk

def decodeIOVectorNetworkVertex (v : JValue) : Option IOVectorNetworkVertex := do
  match v with
  | .obj o =>
    let p ← reqField o "p" decodeVec2
    pure { p }
  | _ => none

def decodeIOVectorNetworkSegment (v : JValue) : Option IOVectorNetworkSegment := do
  match v with
  | .obj o =>
    let a ← reqField o "a" decodeUsize
    let b ← reqField o "b" decodeUsize
    let ta ← reqField o "ta" decodeVec2
    let tb ← reqField o "tb" decodeVec2
    pure { a, b, ta, tb }
  | _ => none

def decodeIOVectorNetwork (v : JValue) : Option IOVectorNetwork := do
  match v with
  | .obj o =>
    let vertices ← dfltField o "vertices" (decodeList decodeIOVectorNetworkVertex) []
    let segments ← dfltField o "segments" (decodeList decodeIOVectorNetworkSegment) []
    pure { vertices, segments }
  | _ => none

/-- `io_json.rs` `deserialize_corner_radius`, composed with its
`Option::<Value>::deserialize` prelude: a bare number is a uniform radius, a
4-element array is positional `{tl, tr, bl, br}` (non-numeric entries fall
back to `0.0` via `as_f64().unwrap_or(0.0)`), and every other shape is
silently `None`.  The function never produces a deserialization error, so its
result is total here (the Rust `Ok`). -/
def deserialize_corner_radius (v : JValue) : Option RectangularCornerRadius :=
  match v with
  | .null => none
  | .num n => some (RectangularCornerRadius.all n)
  | .arr xs =>
    match xs with
    | [a, b, c, d] =>
      some { tl := jnumOrZero a, tr := jnumOrZero b, bl := jnumOrZero c, br := jnumOrZero d }
    | _ => none
  | _ => none
where
  /-- `v.as_f64().unwrap_or(0.0)`. -/
  jnumOrZero : JValue → ℚ
    | .num n => n
    | _ => 0

/-- The `cornerRadius` struct field: absent falls back to
`default_corner_radius` (`None`); present goes through
`deserialize_corner_radius`, which never errors. -/
def cornerRadiusField (o : List (String × JValue)) :
    Option (Option RectangularCornerRadius) :=
  match jLookup o "cornerRadius" with
  | none => some none
  | some v => some (deserialize_corner_radius v)

def decodeIOContainerNode (o : List (String × JValue)) : Option IOContainerNode :=
  match reqField o "id" decodeString, reqField o "name" decodeString,
    dfltField o "active" decodeBool true, dfltField o "locked" decodeBool false,
    dfltField o "opacity" decodeF32 1, dfltField o "rotation" decodeF32 0,
    dfltField o "zIndex" decodeI32 0, optField o "position" decodeString,
    reqField o "left" decodeF32, reqField o "top" decodeF32,
    jLookup o "width", jLookup o "height",
    reqField o "children" (decodeList decodeString), optField o "expanded" decodeBool,
    optField o "fill" decodeFill, optField o "border" decodeBorder,
    optField o "style" decodeObj, cornerRadiusField o,
    optField o "padding" some, optField o "layout" decodeString,
    optField o "direction" decodeString, optField o "mainAxisAlignment" decodeString,
    optField o "crossAxisAlignment" decodeString, optField o "mainAxisGap" decodeF32,
    optField o "crossAxisGap" decodeF32 with
  | some id, some name, some active, some locked, some opacity, some rotation,
    some z_index, some position, some left, some top, some width, some height,
    some children, some expanded, some fill, some border, some style,
    some corner_radius, some padding, some layout, some direction,
    some main_axis_alignment, some cross_axis_alignment, some main_axis_gap,
    some cross_axis_gap =>
    some { id, name, active, locked, opacity, rotation, z_index, position, left, top,
           width, height, children, expanded, fill, border, style, corner_radius,
           padding, layout, direction, main_axis_alignment, cross_axis_alignment,
           main_axis_gap, cross_axis_gap }
  | _, _, _, _, _, _, _, _, _, _, _, _, _, _, _, _, _, _, _, _, _, _, _, _, _ =>
    none

def decodeIOTextNode (o : List (String × JValue)) : Option IOTextNode :=
  match reqField o "id" decodeString, reqField o "name" decodeString,
    dfltField o "active" decodeBool true, dfltField o "locked" decodeBool false,
    dfltField o "opacity" decodeF32 1, dfltField o "rotation" decodeF32 0,
    dfltField o "zIndex" decodeI32 0, optField o "position" decodeString,
    reqField o "left" decodeF32, reqField o "top" decodeF32,
    optField o "right" decodeF32, optField o "bottom" decodeF32,
    jLookup o "width", jLookup o "height",
    optField o "fill" decodeFill, optField o "style" decodeObj,
    reqField o "text" decodeString,
    dfltField o "textAlign" decodeTextAlign TextAlign.Left,
    dfltField o "textAlignVertical" decodeTextAlignVertical TextAlignVertical.Top,
    dfltField o "textDecoration" decodeTextDecoration TextDecoration.None,
    optField o "lineHeight" decodeF32, optField o "letterSpacing" decodeF32,
    optField o "fontSize" decodeF32, optField o "fontFamily" decodeString,
    dfltField o "fontWeight" decodeFontWeight FontWeight.default with
  | some id, some name, some active, some locked, some opacity, some rotation,
    some z_index, some position, some left, some top, some right, some bottom,
    some width, some height, some fill, some style, some text, some text_align,
    some text_align_vertical, some text_decoration, some line_height,
    some letter_spacing, some font_size, some font_family, some font_weight =>
    some { id, name, active, locked, opacity, rotation, z_index, position, left, top,
           right, bottom, width, height, fill, style, text, text_align,
           text_align_vertical, text_decoration, line_height, letter_spacing,
           font_size, font_family, font_weight }
  | _, _, _, _, _, _, _, _, _, _, _, _, _, _, _, _, _, _, _, _, _, _, _, _, _ =>
    none

def decodeIOVectorNode (o : List (String × JValue)) : Option IOVectorNode :=
  match reqField o "id" decodeString, reqField o "name" decodeString,
    dfltField o "active" decodeBool true, dfltField o "locked" decodeBool false,
    dfltField o "opacity" decodeF32 1, dfltField o "rotation" decodeF32 0,
    dfltField o "zIndex" decodeI32 0, optField o "position" decodeString,
    reqField o "left" decodeF32, reqField o "top" decodeF32,
    reqField o "width" decodeF32, reqField o "height" decodeF32,
    optField o "fill" decodeFill, optField o "paths" (decodeList decodeIOPath) with
  | some id, some name, some active, some locked, some opacity, some rotation,
    some z_index, some position, some left, some top, some width, some height,
    some fill, some paths =>
    some { id, name, active, locked, opacity, rotation, z_index, position, left, top,
           width, height, fill, paths }
  | _, _, _, _, _, _, _, _, _, _, _, _, _, _ => none

def decodeIOPathNode (o : List (String × JValue)) : Option IOPathNode :=
  match reqField o "id" decodeString, reqField o "name" decodeString,
    dfltField o "active" decodeBool true, dfltField o "locked" decodeBool false,
    dfltField o "opacity" decodeF32 1, dfltField o "rotation" decodeF32 0,
    dfltField o "zIndex" decodeI32 0, optField o "position" decodeString,
    reqField o "left" decodeF32, reqField o "top" decodeF32,
    reqField o "width" decodeF32, reqField o "height" decodeF32,
    optField o "vectorNetwork" decodeIOVectorNetwork, optField o "fill" decodeFill,
    optField o "strokeWidth" decodeF32 with
  | some id, some name, some active, some locked, some opacity, some rotation,
    some z_index, some position, some left, some top, some width, some height,
    some vector_network, some fill, some stroke_width =>
    some { id, name, active, locked, opacity, rotation, z_index, position, left, top,
           width, height, vector_network, fill, stroke_width }
  | _, _, _, _, _, _, _, _, _, _, _, _, _, _, _ => none

def decodeIOEllipseNode (o : List (String × JValue)) : Option IOEllipseNode :=
  match reqField o "id" decodeString, reqField o "name" decodeString,
    dfltField o "active" decodeBool true, dfltField o "locked" decodeBool false,
    dfltField o "opacity" decodeF32 1, dfltField o "rotation" decodeF32 0,
    dfltField o "zIndex" decodeI32 0, optField o "position" decodeString,
    reqField o "left" decodeF32, reqField o "top" decodeF32,
    reqField o "width" decodeF32, reqField o "height" decodeF32,
    optField o "fill" decodeFill, optField o "strokeWidth" decodeF32,
    optField o "strokeCap" decodeString, optField o "effects" (decodeList some) with
  | some id, some name, some active, some locked, some opacity, some rotation,
    some z_index, some position, some left, some top, some width, some height,
    some fill, some stroke_width, some stroke_cap, some effects =>
    some { id, name, active, locked, opacity, rotation, z_index, position, left, top,
           width, height, fill, stroke_width, stroke_cap, effects }
  | _, _, _, _, _, _, _, _, _, _, _, _, _, _, _, _ => none

def decodeIORectangleNode (o : List (String × JValue)) : Option IORectangleNode :=
  match reqField o "id" decodeString, reqField o "name" decodeString,
    dfltField o "active" decodeBool true, dfltField o "locked" decodeBool false,
    dfltField o "opacity" decodeF32 1, dfltField o "rotation" decodeF32 0,
    dfltField o "zIndex" decodeI32 0, optField o "position" decodeString,
    reqField o "left" decodeF32, reqField o "top" decodeF32,
    reqField o "width" decodeF32, reqField o "height" decodeF32,
    optField o "fill" decodeFill, optField o "strokeWidth" decodeF32,
    optField o "strokeCap" decodeString, optField o "effects" (decodeList some),
    cornerRadiusField o with
  | some id, some name, some active, some locked, some opacity, some rotation,
    some z_index, some position, some left, some top, some width, some height,
    some fill, some stroke_width, some stroke_cap, some effects,
    some corner_radius =>
    some { id, name, active, locked, opacity, rotation, z_index, position, left, top,
           width, height, fill, stroke_width, stroke_cap, effects, corner_radius }
  | _, _, _, _, _, _, _, _, _, _, _, _, _, _, _, _, _ => none

/-- The tag set `#[serde(rename = …)]`-declared on `IONode`. -/
def recognizedNodeTags : List String :=
  ["container", "text", "vector", "path", "ellipse", "rectangle"]

/-- The internally tagged `IONode` enum: the `"type"` tag selects the payload
struct; any other string tag becomes `Unknown` (`#[serde(other)]`); a missing
or non-string tag is a deserialization error. -/
def decodeIONode (v : JValue) : Option IONode :=
  match v with
  | .obj o =>
    match jLookup o "type" with
    | some (.str t) =>
      if t = "container" then (decodeIOContainerNode o).map IONode.Container
      else if t = "text" then (decodeIOTextNode o).map IONode.Text
      else if t = "vector" then (decodeIOVectorNode o).map IONode.Vector
      else if t = "path" then (decodeIOPathNode o).map IONode.Path
      else if t = "ellipse" then (decodeIOEllipseNode o).map IONode.Ellipse
      else if t = "rectangle" then (decodeIORectangleNode o).map IONode.Rectangle
      else some IONode.Unknown
    | _ => none
  | _ => none

/-- The `nodes` table of `IODocument`: every entry must decode for the
document to parse. -/
def decodeNodes (entries : List (String × JValue)) : Option (List (String × IONode)) :=
  entries.mapM fun kv => (decodeIONode kv.2).map fun n => (kv.1, n)

/-! ## Conversion into the canonical model (`io_json.rs` `From` impls) -/

/-- Rust `(x as u8)` on an `f32`: truncate toward zero and saturate to
`[0, 255]` (after clamping, truncation and floor agree). -/
def f32_as_u8 (q : ℚ) : ℕ := (max 0 (min 255 ⌊q⌋)).toNat

/-- `From<RGBA> for Color`: `Color(r, g, b, (a * 255.0) as u8)`. -/
def colorFromRGBA (c : RGBA) : Color := ⟨c.r, c.g, c.b, f32_as_u8 (c.a * 255)⟩

/-- `From<IOGradientStop> for GradientStop`. -/
def gradientStopFromIO (s : IOGradientStop) : GradientStop :=
  { offset := s.offset, color := colorFromRGBA s.color }

/-- `From<Option<Fill>> for Paint`: solid fills keep their color (or become
fully transparent black when colorless or absent); gradients map stop for
stop, an absent transform resolving to the identity. -/
def paintFromFill : Option Fill → Paint
  | some (Fill.Solid color) =>
    Paint.Solid { color := (color.map colorFromRGBA).getD ⟨0, 0, 0, 0⟩, opacity := 1 }
  | some (Fill.LinearGradient _ transform stops) =>
    Paint.LinearGradient
      { transform := (transform.map AffineTransform.matrix).getD AffineTransform.identity
        stops := stops.map gradientStopFromIO
        opacity := 1 }
  | some (Fill.RadialGradient _ transform stops) =>
    Paint.RadialGradient
      { transform := (transform.map AffineTransform.matrix).getD AffineTransform.identity
        stops := stops.map gradientStopFromIO
        opacity := 1 }
  | none => Paint.Solid { color := ⟨0, 0, 0, 0⟩, opacity := 1 }

/-- The width/height narrowing applied by the container and text conversions:
`match value { Number(n) => n as f32, _ => 0.0 }`. -/
def jvalueToSize : JValue → ℚ
  | .num n => n
  | _ => 0

/-- `From<IOContainerNode> for ContainerNode`. -/
def containerNodeFromIOContainerNode (node : IOContainerNode) : ContainerNode :=
  { base := { id := node.id, name := node.name, active := node.active }
    blend_mode := BlendMode.Normal
    transform := AffineTransform.new node.left node.top node.rotation
    size := { width := jvalueToSize node.width, height := jvalueToSize node.height }
    corner_radius := node.corner_radius.getD RectangularCornerRadius.zero
    fill := paintFromFill node.fill
    stroke := none
    stroke_width := 0
    stroke_align := StrokeAlign.Inside
    stroke_dash_array := none
    effect := none
    children := node.children
    opacity := node.opacity
    clip := true }

/-- `From<IOTextNode> for TextSpanNode`. -/
def textSpanNodeFromIOTextNode (node : IOTextNode) : TextSpanNode :=
  { base := { id := node.id, name := node.name, active := node.active }
    blend_mode := BlendMode.Normal
    transform := AffineTransform.new node.left node.top node.rotation
    size := { width := jvalueToSize node.width, height := jvalueToSize node.height }
    text := node.text
    text_style :=
      { text_decoration := node.text_decoration
        font_family := node.font_family.getD "Inter"
        font_size := node.font_size.getD 14
        font_weight := node.font_weight
        italic := false
        letter_spacing := node.letter_spacing
        line_height := node.line_height
        text_transform := TextTransform.None }
    text_align := node.text_align
    text_align_vertical := node.text_align_vertical
    fill := paintFromFill node.fill
    stroke := none
    stroke_width := none
    stroke_align := StrokeAlign.Inside
    opacity := node.opacity }

/-- `From<IOEllipseNode> for Node`. -/
def nodeFromIOEllipseNode (node : IOEllipseNode) : Node :=
  Node.Ellipse
    { base := { id := node.id, name := node.name, active := node.active }
      blend_mode := BlendMode.Normal
      transform := AffineTransform.new node.left node.top node.rotation
      size := { width := node.width, height := node.height }
      fill := paintFromFill node.fill
      stroke := Paint.Solid { color := ⟨0, 0, 0, 255⟩, opacity := 1 }
      stroke_width := node.stroke_width.getD 0
      stroke_align := StrokeAlign.Inside
      stroke_dash_array := none
      effect := none
      opacity := node.opacity }

/-- `From<IORectangleNode> for Node`. -/
def nodeFromIORectangleNode (node : IORectangleNode) : Node :=
  Node.Rectangle
    { base := { id := node.id, name := node.name, active := node.active }
      blend_mode := BlendMode.Normal
      transform := AffineTransform.new node.left node.top node.rotation
      size := { width := node.width, height := node.height }
      corner_radius := node.corner_radius.getD RectangularCornerRadius.zero
      fill := paintFromFill node.fill
      stroke := Paint.Solid { color := ⟨0, 0, 0, 255⟩, opacity := 1 }
      stroke_width := node.stroke_width.getD 0
      stroke_align := StrokeAlign.Inside
      stroke_dash_array := none
      effect := none
      opacity := node.opacity }

/-- `From<IOVectorNode> for Node`: vector nodes become path nodes whose data
joins the `d` strings of their path records with single spaces. -/
def nodeFromIOVectorNode (node : IOVectorNode) : Node :=
  Node.Path
    { base := { id := node.id, name := node.name, active := node.active }
      blend_mode := BlendMode.Normal
      transform := AffineTransform.new node.left node.top node.rotation
      fill := paintFromFill node.fill
      data := (node.paths.map fun paths =>
        String.intercalate " " (paths.map fun path => path.d)).getD ""
      stroke := Paint.Solid { color := ⟨0, 0, 0, 255⟩, opacity := 1 }
      stroke_width := 0
      stroke_align := StrokeAlign.Inside
      stroke_dash_array := none
      opacity := node.opacity
      effect := none }

/-- The textual form of one emitted command, mirroring the `format!` calls in
`vector_network_to_path` (`M{x} {y}` and ` C{c1x} {c1y},{c2x} {c2y},{x} {y}`);
`f32` display formatting is abstracted by rational formatting. -/
def renderPathCmd : PathCmd → String
  | .move p => "M" ++ toString p.1 ++ " " ++ toString p.2
  | .cubic c1 c2 p =>
    " C" ++ toString c1.1 ++ " " ++ toString c1.2 ++ "," ++
    toString c2.1 ++ " " ++ toString c2.2 ++ "," ++
    toString p.1 ++ " " ++ toString p.2

/-- The full path-data string accumulated by `vector_network_to_path`. -/
def renderPathCmds (cmds : List PathCmd) : String :=
  String.join (cmds.map renderPathCmd)

/-- The data-string computation of `From<IOPathNode> for Node`:
`vector_network.as_ref().map(vector_network_to_path).unwrap_or_else(String::new)`;
`none` propagates the panic on an out-of-range vertex index. -/
def pathNodeData (vn : Option IOVectorNetwork) : Option (List PathCmd) :=
  match vn with
  | some vn => vector_network_to_path vn
  | none => some []

/-- `From<IOPathNode> for Node`: the data string is reconstructed from the
vector network (empty when absent); `none` models the panic on an
out-of-range vertex index. -/
def nodeFromIOPathNode (node : IOPathNode) : Option Node :=
  (pathNodeData node.vector_network).map fun cmds =>
    Node.Path
      { base := { id := node.id, name := node.name, active := node.active }
        blend_mode := BlendMode.Normal
        transform := AffineTransform.new node.left node.top node.rotation
        fill := paintFromFill node.fill
        data := renderPathCmds cmds
        stroke := Paint.Solid { color := ⟨0, 0, 0, 255⟩, opacity := 1 }
        stroke_width := node.stroke_width.getD 0
        stroke_align := StrokeAlign.Inside
        stroke_dash_array := none
        opacity := node.opacity
        effect := none }

/-- `From<IONode> for Node`: per-variant conversion; the `Unknown` placeholder
becomes a fixed `Error` node (identifier `"unknown"`, 100×100, inactive, full
opacity, diagnostic `"Unknown node"`).  `none` models the panic that
`From<IOPathNode>` can hit while reconstructing path data. -/
def nodeFromIONode : IONode → Option Node
  | .Container c => some (Node.Container (containerNodeFromIOContainerNode c))
  | .Text t => some (Node.TextSpan (textSpanNodeFromIOTextNode t))
  | .Vector v => some (nodeFromIOVectorNode v)
  | .Path p => nodeFromIOPathNode p
  | .Ellipse e => some (nodeFromIOEllipseNode e)
  | .Rectangle r => some (nodeFromIORectangleNode r)
  | .Unknown =>
    some (Node.Error
      { base := { id := "unknown", name := "Unknown Node", active := false }
        transform := AffineTransform.identity
        size := { width := 100, height := 100 }
        opacity := 1
        error := "Unknown node" })

/-- The source-file identifier carried by an intermediate node (`Unknown`
carries none: `#[serde(other)]` discards the payload). -/
def IONode.sourceId : IONode → Option String
  | .Container c => some c.id
  | .Text t => some t.id
  | .Vector v => some v.id
  | .Path p => some p.id
  | .Ellipse e => some e.id
  | .Rectangle r => some r.id
  | .Unknown => none

/-! ## Specification-side formulas (stated from the spec's words, to be
compared against the source-derived functions above) -/

/-- Euclidean distance between two points. -/
noncomputable def euclidDist (p q : Point) : ℝ :=
  Real.sqrt ((p.x - q.x) ^ 2 + (p.y - q.y) ^ 2)

/-- Spec formula: the angle of vertex `i` of a regular `n`-gon, `(i/n)·2π`
plus an offset of `π/n` for even `n` and `−π/2` for odd `n`. -/
noncomputable def regularPolygonAngle (n i : ℕ) : ℝ :=
  (i : ℝ) / (n : ℝ) * 2 * Real.pi +
    (if n % 2 = 0 then Real.pi / n else -(Real.pi / 2))

/-- Spec formula: vertex `i` of the regular polygon, at position
`(w/2 + r·cos θ, h/2 + r·sin θ)` with `r = min(w,h)/2`. -/
noncomputable def regularPolygonVertex (w h : ℚ) (n i : ℕ) : Point :=
  { x := ((w / 2 : ℚ) : ℝ) + ((min w h / 2 : ℚ) : ℝ) * Real.cos (regularPolygonAngle n i)
    y := ((h / 2 : ℚ) : ℝ) + ((min w h / 2 : ℚ) : ℝ) * Real.sin (regularPolygonAngle n i) }

/-- Spec formula: the angle of star vertex `i`, `−π/2 + i·(π/n)`. -/
noncomputable def regularStarAngle (n i : ℕ) : ℝ :=
  -(Real.pi / 2) + (i : ℝ) * (Real.pi / n)

/-- Spec formula: the radius of star vertex `i` — the outer radius for even
`i`, the outer radius scaled by the inner-radius ratio for odd `i`. -/
def regularStarRadius (w h r : ℚ) (i : ℕ) : ℚ :=
  if i % 2 = 0 then min (w / 2) (h / 2) else min (w / 2) (h / 2) * r

/-- Spec formula: star vertex `i`. -/
noncomputable def regularStarVertex (w h r : ℚ) (n i : ℕ) : Point :=
  { x := ((w / 2 : ℚ) : ℝ) +
      ((regularStarRadius w h r i : ℚ) : ℝ) * Real.cos (regularStarAngle n i)
    y := ((h / 2 : ℚ) : ℝ) +
      ((regularStarRadius w h r i : ℚ) : ℝ) * Real.sin (regularStarAngle n i) }

/-- The starting point of the reconstructed path: the first vertex referenced
by the first segment's start endpoint, or the origin without segments. -/
def vnStartPoint (vn : IOVectorNetwork) : ℚ × ℚ :=
  match vn.segments.head? with
  | some s => (vn.vertices.getD s.a ⟨(0, 0)⟩).p
  | none => (0, 0)

/-- The (total) curve command of one in-bounds segment. -/
def vnSegmentCmd (vn : IOVectorNetwork) (seg : IOVectorNetworkSegment) : PathCmd :=
  PathCmd.cubic (vadd (vn.vertices.getD seg.a ⟨(0, 0)⟩).p seg.ta)
    (vadd (vn.vertices.getD seg.b ⟨(0, 0)⟩).p seg.tb)
    (vn.vertices.getD seg.b ⟨(0, 0)⟩).p

/-! ## Concrete inputs used by witnesses and counterexamples -/

/-- A two-segment chain: segment 2 starts at segment 1's end vertex. -/
def vnExample : IOVectorNetwork :=
  { vertices := [⟨(0, 0)⟩, ⟨(10, 0)⟩, ⟨(20, 10)⟩]
    segments := [⟨0, 1, (1, 2), (-1, 3)⟩, ⟨1, 2, (0, 1), (2, 0)⟩] }

/-- A triangle in a 100×50 box. -/
def regPolyExample : RegularPolygonNode :=
  { base := ⟨"p1", "", true⟩
    transform := AffineTransform.identity
    size := ⟨100, 50⟩
    point_count := 3
    corner_radius := 0
    fill := Paint.Solid ⟨⟨255, 255, 255, 255⟩, 1⟩
    stroke := Paint.Solid ⟨⟨0, 0, 0, 255⟩, 1⟩
    stroke_width := 1
    stroke_align := StrokeAlign.Inside
    opacity := 1
    blend_mode := BlendMode.Normal
    effect := none
    stroke_dash_array := none }

/-- A 3-spike star in an 80×60 box with inner-radius ratio 1/2. -/
def regStarExample : RegularStarPolygonNode :=
  { base := ⟨"s1", "", true⟩
    transform := AffineTransform.identity
    size := ⟨80, 60⟩
    point_count := 3
    inner_radius := 1 / 2
    corner_radius := 0
    fill := Paint.Solid ⟨⟨255, 255, 255, 255⟩, 1⟩
    stroke := Paint.Solid ⟨⟨0, 0, 0, 255⟩, 1⟩
    stroke_width := 1
    stroke_align := StrokeAlign.Inside
    opacity := 1
    blend_mode := BlendMode.Normal
    effect := none
    stroke_dash_array := none }

/-- A decoded rectangle payload. -/
def rectExample : IORectangleNode :=
  { id := "r9", name := "R", active := true, locked := false, opacity := 1,
    rotation := 0, z_index := 0, position := none, left := 0, top := 0,
    width := 10, height := 10, fill := none, stroke_width := none,
    stroke_cap := none, effects := none, corner_radius := none }

/-- A rectangle node object whose width is the sizing keyword "fill". -/
def rectWidthFillObj : List (String × JValue) :=
  [("type", JValue.str "rectangle"), ("id", JValue.str "r1"),
   ("name", JValue.str "R"), ("left", JValue.num 0), ("top", JValue.num 0),
   ("width", JValue.str "fill"), ("height", JValue.num 100)]

/-- The same rectangle node object with a numeric width. -/
def rectWidthNumObj : List (String × JValue) :=
  [("type", JValue.str "rectangle"), ("id", JValue.str "r1"),
   ("name", JValue.str "R"), ("left", JValue.num 0), ("top", JValue.num 0),
   ("width", JValue.num 100), ("height", JValue.num 100)]

/-- A node object of an unrecognized kind, with an identifier. -/
def stickyNoteObj : List (String × JValue) :=
  [("type", JValue.str "sticky-note"), ("id", JValue.str "node-7")]

/-! ## Helper lemmas -/

theorem segmentCmd_eq_of_bounds (vn : IOVectorNetwork) (s : IOVectorNetworkSegment)
    (ha : s.a < vn.vertices.length) (hb : s.b < vn.vertices.length) :
    segmentCmd vn s = some (vnSegmentCmd vn s) := by
  unfold segmentCmd vnSegmentCmd
  rw [List.getElem?_eq_getElem ha, List.getElem?_eq_getElem hb]
  simp [List.getD_eq_getElem?_getD, List.getElem?_eq_getElem, ha, hb]

theorem segmentCmd_eq_none_of_oob (vn : IOVectorNetwork) (s : IOVectorNetworkSegment)
    (h : vn.vertices.length ≤ s.a ∨ vn.vertices.length ≤ s.b) :
    segmentCmd vn s = none := by
  unfold segmentCmd
  rcases h with h | h
  · rw [List.getElem?_eq_none h]
    rfl
  · rw [List.getElem?_eq_none h]
    rcases vn.vertices[s.a]? with _ | v <;> rfl

theorem mapM_eq_map_of_bounds (vn : IOVectorNetwork)
    (l : List IOVectorNetworkSegment)
    (hl : ∀ s ∈ l, s.a < vn.vertices.length ∧ s.b < vn.vertices.length) :
    l.mapM (segmentCmd vn) = some (l.map (vnSegmentCmd vn)) := by
  induction l with
  | nil => rfl
  | cons s tl ih =>
    have hs := hl s (List.mem_cons_self s tl)
    have htl := ih fun x hx => hl x (List.mem_cons_of_mem s hx)
    rw [List.mapM_cons, segmentCmd_eq_of_bounds vn s hs.1 hs.2, htl, List.map_cons]
    rfl

theorem mapM_eq_none_of_oob (vn : IOVectorNetwork)
    (l : List IOVectorNetworkSegment) (s : IOVectorNetworkSegment) (hs : s ∈ l)
    (h : vn.vertices.length ≤ s.a ∨ vn.vertices.length ≤ s.b) :
    l.mapM (segmentCmd vn) = none := by
  induction l with
  | nil => cases hs
  | cons x tl ih =>
    rw [List.mapM_cons]
    rcases List.mem_cons.mp hs with heq | hmem
    · subst heq
      rw [segmentCmd_eq_none_of_oob vn _ h]
      rfl
    · rcases hx : segmentCmd vn x with _ | c
      · rfl
      · have h2 := ih hmem
        rcases hm : tl.mapM (segmentCmd vn) with _ | ys
        · simp [hm]
        · rw [h2] at hm
          cases hm

/-- The reconstruction, under the preconditions that make the source total:
one move command to the start point, then one cubic command per segment. -/
theorem vector_network_to_path_eq (vn : IOVectorNetwork)
    (hne : vn.vertices ≠ [])
    (hb : ∀ s ∈ vn.segments, s.a < vn.vertices.length ∧ s.b < vn.vertices.length) :
    vector_network_to_path vn =
      some (PathCmd.move (vnStartPoint vn) :: vn.segments.map (vnSegmentCmd vn)) := by
  unfold vector_network_to_path
  rw [if_neg (by simpa [List.isEmpty_iff] using hne)]
  rcases hh : vn.segments.head? with _ | s
  · have hseg : vn.segments = [] := List.head?_eq_none_iff.mp hh
    have hsp : vnStartPoint vn = (0, 0) := by
      unfold vnStartPoint
      rw [hh]
    rw [hseg, hsp]
    rfl
  · have hmem : s ∈ vn.segments := List.mem_of_mem_head? (Option.mem_def.mpr hh)
    have ha := (hb s hmem).1
    have hsp : vnStartPoint vn = (vn.vertices.getD s.a ⟨(0, 0)⟩).p := by
      unfold vnStartPoint
      rw [hh]
    have hget : vn.vertices[s.a]? = some (vn.vertices.getD s.a ⟨(0, 0)⟩) := by
      rw [List.getElem?_eq_getElem ha]
      simp [List.getD_eq_getElem?_getD, List.getElem?_eq_getElem, ha]
    rw [hsp]
    simp only [hget, mapM_eq_map_of_bounds vn vn.segments hb]
    rfl

theorem min_half (w h : ℚ) : min w h / 2 = min (w / 2) (h / 2) := by
  rcases le_total w h with h' | h'
  · rw [min_eq_left h', min_eq_left (by linarith)]
  · rw [min_eq_right h', min_eq_right (by linarith)]

/-- Distance from a center to a point in polar position. -/
theorem euclidDist_polar (cx cy r θ : ℝ) (hr : 0 ≤ r) :
    euclidDist ⟨cx + r * Real.cos θ, cy + r * Real.sin θ⟩ ⟨cx, cy⟩ = r := by
  unfold euclidDist
  have key : (cx + r * Real.cos θ - cx) ^ 2 + (cy + r * Real.sin θ - cy) ^ 2 = r ^ 2 := by
    have h := Real.sin_sq_add_cos_sq θ
    linear_combination (r ^ 2) * h
  rw [key, Real.sqrt_sq hr]

/-! ## Claim C1 -/

/-- C1 (amended): for a vector network with a non-empty vertex list whose
segment endpoints are all in bounds, the reconstructed path is exactly one
move command — to the first segment's start vertex, or to the origin when
there are no segments — followed by, for each segment in listed order, one
cubic command whose control points are segment-start-vertex + start-tangent
and segment-end-vertex + end-tangent and whose endpoint is the segment's end
vertex. -/
theorem vector_network_reconstruction (vn : IOVectorNetwork)
    (hne : vn.vertices ≠ [])
    (hb : ∀ s ∈ vn.segments, s.a < vn.vertices.length ∧ s.b < vn.vertices.length) :
    vector_network_to_path vn =
      some (PathCmd.move (vnStartPoint vn) :: vn.segments.map (vnSegmentCmd vn)) :=
  vector_network_to_path_eq vn hne hb

/-- C1 counterexample: on the empty network the reconstruction emits no move
command at all (the claim demands a move to the origin), and on a network
with an out-of-range segment index it aborts instead of producing a path. -/
theorem vector_network_reconstruction_cx :
    vector_network_to_path ⟨[], []⟩ = some [] ∧
    List.head? ([] : List PathCmd) ≠ some (PathCmd.move (0, 0)) ∧
    vector_network_to_path ⟨[⟨(0, 0)⟩], [⟨5, 0, (0, 0), (0, 0)⟩]⟩ = none :=
  ⟨rfl, by decide, rfl⟩

/-- C1 witness: the spec's two-segment chain reconstructs to one move and two
cubic commands with control points vertex + tangent. -/
theorem vector_network_reconstruction_witness :
    vnExample.vertices ≠ [] ∧
    vector_network_to_path vnExample =
      some [PathCmd.move (0, 0),
            PathCmd.cubic (1, 2) (9, 3) (10, 0),
            PathCmd.cubic (10, 1) (22, 10) (20, 10)] :=
  ⟨by decide,
   (vector_network_reconstruction vnExample (by decide) (by decide)).trans
     (by norm_num [vnExample, vnStartPoint, vnSegmentCmd, vadd])⟩

/-! ## Claim C10 -/

/-- C10 (amended): with a non-empty vertex list, a segment endpoint index at
or beyond the vertex count makes the reconstruction panic (modelled `none`);
when every segment endpoint is in bounds the function is total.  With an
empty vertex list the function short-circuits to the empty string before any
indexing, even when out-of-range segments are present. -/
theorem vector_network_to_path_bounds (vn : IOVectorNetwork) :
    (vn.vertices ≠ [] →
      (∃ s ∈ vn.segments, vn.vertices.length ≤ s.a ∨ vn.vertices.length ≤ s.b) →
      vector_network_to_path vn = none) ∧
    ((∀ s ∈ vn.segments, s.a < vn.vertices.length ∧ s.b < vn.vertices.length) →
      (vector_network_to_path vn).isSome) := by
  constructor
  · rintro hne ⟨s, hmem, hoob⟩
    unfold vector_network_to_path
    rw [if_neg (by simpa [List.isEmpty_iff] using hne)]
    rw [mapM_eq_none_of_oob vn vn.segments s hmem hoob]
    rcases hh : vn.segments.head? with _ | s₀
    · exact absurd (List.head?_eq_none_iff.mp hh ▸ hmem) (List.not_mem_nil s)
    · rcases hv : vn.vertices[s₀.a]? with _ | v <;> simp [hh, hv]
  · intro hb
    rcases hv : vn.vertices with _ | ⟨v, tl⟩
    · unfold vector_network_to_path
      rw [hv]
      rfl
    · rw [vector_network_to_path_eq vn (by rw [hv]; exact List.cons_ne_nil v tl) hb]
      rfl

/-- C10 counterexample: a network whose only segment references vertex index
0 while the vertex list is empty (an out-of-bounds reference) does not panic:
the empty-vertex guard returns the empty path first. -/
theorem vector_network_to_path_bounds_cx :
    ([] : List IOVectorNetworkVertex).length ≤ 0 ∧
    vector_network_to_path ⟨[], [⟨0, 0, (0, 0), (0, 0)⟩]⟩ = some [] :=
  ⟨by decide, rfl⟩

/-- C10 witness: a concrete out-of-range reference panics, and a concrete
in-bounds network reconstructs. -/
theorem vector_network_to_path_bounds_witness :
    vector_network_to_path ⟨[⟨(0, 0)⟩], [⟨2, 0, (0, 0), (0, 0)⟩]⟩ = none ∧
    (vector_network_to_path ⟨[⟨(3, 4)⟩], [⟨0, 0, (1, 1), (2, 2)⟩]⟩).isSome :=
  ⟨(vector_network_to_path_bounds ⟨[⟨(0, 0)⟩], [⟨2, 0, (0, 0), (0, 0)⟩]⟩).1
      (by decide) (by decide),
   (vector_network_to_path_bounds ⟨[⟨(3, 4)⟩], [⟨0, 0, (1, 1), (2, 2)⟩]⟩).2 (by decide)⟩

/-! ## Claim C2 -/

/-- C2: for a regular polygon with `point_count ≥ 3` and nonnegative size
`(w, h)`, `to_polygon` yields exactly `point_count` points; point `i` lies at
angle `(i/n)·2π` plus `π/n` for even `n` and `−π/2` for odd `n`, at position
`(w/2 + r·cos θ, h/2 + r·sin θ)` with `r = min(w,h)/2`, and so at Euclidean
distance `min(w,h)/2` from the center `(w/2, h/2)`. -/
theorem regular_polygon_to_polygon_spec (node : RegularPolygonNode)
    (_hn : 3 ≤ node.point_count)
    (hw : 0 ≤ node.size.width) (hh : 0 ≤ node.size.height) :
    node.to_polygon.points.length = node.point_count ∧
    ∀ i, i < node.point_count →
      node.to_polygon.points[i]? =
        some (regularPolygonVertex node.size.width node.size.height
          node.point_count i) ∧
      euclidDist
          (regularPolygonVertex node.size.width node.size.height node.point_count i)
          ⟨((node.size.width / 2 : ℚ) : ℝ), ((node.size.height / 2 : ℚ) : ℝ)⟩ =
        ((min node.size.width node.size.height / 2 : ℚ) : ℝ) := by
  have hpts : node.to_polygon.points = (List.range node.point_count).map
      (regularPolygonVertex node.size.width node.size.height node.point_count) := rfl
  constructor
  · rw [hpts, List.length_map, List.length_range]
  · intro i hi
    constructor
    · rw [hpts, List.getElem?_map]
      simp [List.getElem?_range, hi]
    · have hr : (0 : ℝ) ≤ ((min node.size.width node.size.height / 2 : ℚ) : ℝ) := by
        have : (0 : ℚ) ≤ min node.size.width node.size.height / 2 :=
          div_nonneg (le_min hw hh) (by norm_num)
        exact_mod_cast this
      exact euclidDist_polar _ _ _ _ hr

/-- C2 witness: the 100×50 triangle. -/
theorem regular_polygon_to_polygon_spec_witness :
    3 ≤ regPolyExample.point_count ∧
    regPolyExample.to_polygon.points.length = regPolyExample.point_count ∧
    regPolyExample.to_polygon.points[0]? =
      some (regularPolygonVertex regPolyExample.size.width regPolyExample.size.height
        regPolyExample.point_count 0) ∧
    euclidDist
        (regularPolygonVertex regPolyExample.size.width regPolyExample.size.height
          regPolyExample.point_count 0)
        ⟨((regPolyExample.size.width / 2 : ℚ) : ℝ),
         ((regPolyExample.size.height / 2 : ℚ) : ℝ)⟩ =
      ((min regPolyExample.size.width regPolyExample.size.height / 2 : ℚ) : ℝ) :=
  ⟨by decide,
   (regular_polygon_to_polygon_spec regPolyExample (by decide) (by decide) (by decide)).1,
   ((regular_polygon_to_polygon_spec regPolyExample (by decide) (by decide)
      (by decide)).2 0 (by decide)).1,
   ((regular_polygon_to_polygon_spec regPolyExample (by decide) (by decide)
      (by decide)).2 0 (by decide)).2⟩

/-! ## Claim C3 -/

/-- C3: for a regular star polygon with `point_count ≥ 3`, nonnegative
inner-radius ratio `r` and nonnegative size `(w, h)`, `to_polygon` yields
exactly `2·point_count` points; point `i` lies at angle `−π/2 + i·(π/n)` from
the center `(w/2, h/2)`, at distance `min(w,h)/2` for even `i` and
`min(w,h)/2 · r` for odd `i` — outer and inner points alternate starting at
the top outer point. -/
theorem regular_star_to_polygon_spec (node : RegularStarPolygonNode)
    (_hn : 3 ≤ node.point_count)
    (hw : 0 ≤ node.size.width) (hh : 0 ≤ node.size.height)
    (hr : 0 ≤ node.inner_radius) :
    node.to_polygon.points.length = 2 * node.point_count ∧
    ∀ i, i < 2 * node.point_count →
      node.to_polygon.points[i]? =
        some (regularStarVertex node.size.width node.size.height node.inner_radius
          node.point_count i) ∧
      euclidDist
          (regularStarVertex node.size.width node.size.height node.inner_radius
            node.point_count i)
          ⟨((node.size.width / 2 : ℚ) : ℝ), ((node.size.height / 2 : ℚ) : ℝ)⟩ =
        ((if i % 2 = 0 then min node.size.width node.size.height / 2
          else min node.size.width node.size.height / 2 * node.inner_radius : ℚ) : ℝ) := by
  have hpts : node.to_polygon.points = (List.range (node.point_count * 2)).map
      (regularStarVertex node.size.width node.size.height node.inner_radius
        node.point_count) := rfl
  constructor
  · rw [hpts, List.length_map, List.length_range, Nat.mul_comm]
  · intro i hi
    have hi' : i < node.point_count * 2 := by omega
    constructor
    · rw [hpts, List.getElem?_map]
      simp [List.getElem?_range, hi']
    · have houter : (0 : ℚ) ≤ min (node.size.width / 2) (node.size.height / 2) :=
        le_min (by linarith) (by linarith)
      have hrad : (0 : ℝ) ≤ ((regularStarRadius node.size.width node.size.height
          node.inner_radius i : ℚ) : ℝ) := by
        have : (0 : ℚ) ≤ regularStarRadius node.size.width node.size.height
            node.inner_radius i := by
          unfold regularStarRadius
          split
          · exact houter
          · exact mul_nonneg houter hr
        exact_mod_cast this
      have hdist := euclidDist_polar
        ((node.size.width / 2 : ℚ) : ℝ) ((node.size.height / 2 : ℚ) : ℝ)
        ((regularStarRadius node.size.width node.size.height node.inner_radius i : ℚ) : ℝ)
        (regularStarAngle node.point_count i) hrad
      rw [show regularStarVertex node.size.width node.size.height node.inner_radius
          node.point_count i =
          ⟨((node.size.width / 2 : ℚ) : ℝ) +
            ((regularStarRadius node.size.width node.size.height node.inner_radius i : ℚ) : ℝ) *
              Real.cos (regularStarAngle node.point_count i),
           ((node.size.height / 2 : ℚ) : ℝ) +
            ((regularStarRadius node.size.width node.size.height node.inner_radius i : ℚ) : ℝ) *
              Real.sin (regularStarAngle node.point_count i)⟩ from rfl]
      rw [hdist]
      unfold regularStarRadius
      split
      · norm_cast
        rw [min_half]
      · norm_cast
        rw [min_half]

/-- C3 witness: the 80×60 three-spike star with ratio 1/2. -/
theorem regular_star_to_polygon_spec_witness :
    3 ≤ regStarExample.point_count ∧
    regStarExample.to_polygon.points.length = 2 * regStarExample.point_count ∧
    regStarExample.to_polygon.points[1]? =
      some (regularStarVertex regStarExample.size.width regStarExample.size.height
        regStarExample.inner_radius regStarExample.point_count 1) ∧
    euclidDist
        (regularStarVertex regStarExample.size.width regStarExample.size.height
          regStarExample.inner_radius regStarExample.point_count 1)
        ⟨((regStarExample.size.width / 2 : ℚ) : ℝ),
         ((regStarExample.size.height / 2 : ℚ) : ℝ)⟩ =
      ((if 1 % 2 = 0 then min regStarExample.size.width regStarExample.size.height / 2
        else min regStarExample.size.width regStarExample.size.height / 2 *
          regStarExample.inner_radius : ℚ) : ℝ) :=
  ⟨by decide,
   (regular_star_to_polygon_spec regStarExample (by decide) (by decide) (by decide)
      (by norm_num [regStarExample])).1,
   ((regular_star_to_polygon_spec regStarExample (by decide) (by decide) (by decide)
      (by norm_num [regStarExample])).2 1 (by decide)).1,
   ((regular_star_to_polygon_spec regStarExample (by decide) (by decide) (by decide)
      (by norm_num [regStarExample])).2 1 (by decide)).2⟩

/-! ## Claim C4 -/

/-- C4: a node object whose type tag is a string outside the recognized set
{container, text, vector, path, ellipse, rectangle} still deserializes — to
the `Unknown` placeholder, so the document is not rejected — and the
placeholder converts to an `Error` node with size exactly 100×100, opacity 1,
`active = false` and the non-empty diagnostic string "Unknown node". -/
theorem unknown_node_kind_is_absorbed (o : List (String × JValue)) (t : String)
    (htag : jLookup o "type" = some (JValue.str t))
    (hnot : t ∉ recognizedNodeTags) :
    decodeIONode (JValue.obj o) = some IONode.Unknown ∧
    nodeFromIONode IONode.Unknown = some (Node.Error
      { base := { id := "unknown", name := "Unknown Node", active := false }
        transform := AffineTransform.identity
        size := { width := 100, height := 100 }
        opacity := 1
        error := "Unknown node" }) ∧
    ("Unknown node" : String) ≠ "" := by
  obtain ⟨h1, h2, h3, h4, h5, h6⟩ :
      t ≠ "container" ∧ t ≠ "text" ∧ t ≠ "vector" ∧ t ≠ "path" ∧ t ≠ "ellipse" ∧
        t ≠ "rectangle" := by
    simpa [recognizedNodeTags] using hnot
  refine ⟨?_, rfl, by decide⟩
  simp [decodeIONode, htag, h1, h2, h3, h4, h5, h6]

/-- C4 witness: a "sticky-note" node parses to the placeholder. -/
theorem unknown_node_kind_is_absorbed_witness :
    jLookup stickyNoteObj "type" = some (JValue.str "sticky-note") ∧
    decodeIONode (JValue.obj stickyNoteObj) = some IONode.Unknown :=
  ⟨rfl, (unknown_node_kind_is_absorbed stickyNoteObj "sticky-note" rfl (by decide)).1⟩

/-! ## Claim C5 -/

/-- C5 (amended): lenient width/height decoding applies to container and text
nodes only — a literal number is used as-is and every other representation
(string keyword, boolean, array, object, null) resolves to size 0.0 — while
rectangle nodes require a numeric width: a rectangle whose width is not a
literal number fails deserialization instead of converting to width 0.0, and
a numeric rectangle width is used as-is. -/
theorem width_height_decoding_policy :
    (∀ q : ℚ, jvalueToSize (JValue.num q) = q) ∧
    jvalueToSize JValue.null = 0 ∧
    (∀ b, jvalueToSize (JValue.bool b) = 0) ∧
    (∀ s, jvalueToSize (JValue.str s) = 0) ∧
    (∀ xs, jvalueToSize (JValue.arr xs) = 0) ∧
    (∀ o, jvalueToSize (JValue.obj o) = 0) ∧
    (∀ c : IOContainerNode, (containerNodeFromIOContainerNode c).size =
      ⟨jvalueToSize c.width, jvalueToSize c.height⟩) ∧
    (∀ t : IOTextNode, (textSpanNodeFromIOTextNode t).size =
      ⟨jvalueToSize t.width, jvalueToSize t.height⟩) ∧
    (∀ o, (∀ q : ℚ, jLookup o "width" ≠ some (JValue.num q)) →
      decodeIORectangleNode o = none) ∧
    (decodeIORectangleNode rectWidthNumObj).map IORectangleNode.width = some 100 := by
  refine ⟨fun q => rfl, rfl, fun b => rfl, fun s => rfl, fun xs => rfl, fun o => rfl,
    fun c => rfl, fun t => rfl, ?_, rfl⟩
  intro o hw
  have hwn : reqField o "width" decodeF32 = none := by
    unfold reqField
    rcases hl : jLookup o "width" with _ | v
    · rfl
    · cases v with
      | null => rfl
      | bool b => rfl
      | num q => exact absurd hl (hw q)
      | str s => rfl
      | arr xs => rfl
      | obj fields => rfl
  unfold decodeIORectangleNode
  rw [hwn]
  split
  · simp_all
  · rfl

/-- C5 witness: the "fill" keyword resolves to 0 under the lenient rule, a
literal number is kept, and the rectangle decoder rejects a non-numeric
width. -/
theorem width_height_decoding_policy_witness :
    jvalueToSize (JValue.str "fill") = 0 ∧
    jvalueToSize (JValue.num 25) = 25 ∧
    decodeIORectangleNode [("width", JValue.str "fill")] = none := by
  refine ⟨width_height_decoding_policy.2.2.2.1 "fill",
    width_height_decoding_policy.1 25, ?_⟩
  refine width_height_decoding_policy.2.2.2.2.2.2.2.2.1 [("width", JValue.str "fill")] ?_
  intro q h
  rw [show jLookup [("width", JValue.str "fill")] "width" = some (JValue.str "fill")
    from rfl] at h
  simp at h

/-- C5 counterexample: a rectangle node object whose width is the keyword
"fill" is rejected by deserialization (so the enclosing document fails to
parse) instead of converting to internal width 0.0. -/
theorem rectangle_width_fill_rejected :
    decodeIONode (JValue.obj rectWidthFillObj) = none ∧
    decodeIORectangleNode rectWidthFillObj = none :=
  ⟨rfl, rfl⟩

/-! ## Claim C6 -/

/-- C6: corner-radius decoding: a bare number yields a uniform radius on all
four corners; a 4-element array is assigned positionally as {tl, tr, bl, br};
every other input shape — including arrays whose length is not 4 — yields
`None`, an absent field defaults to `None`, and no input ever raises a
deserialization error. -/
theorem corner_radius_decoding :
    (∀ q : ℚ, deserialize_corner_radius (JValue.num q) =
      some (RectangularCornerRadius.all q)) ∧
    (∀ a b c d : ℚ,
      deserialize_corner_radius
        (JValue.arr [JValue.num a, JValue.num b, JValue.num c, JValue.num d]) =
      some ⟨a, b, c, d⟩) ∧
    (∀ xs : List JValue, xs.length ≠ 4 →
      deserialize_corner_radius (JValue.arr xs) = none) ∧
    deserialize_corner_radius JValue.null = none ∧
    (∀ b, deserialize_corner_radius (JValue.bool b) = none) ∧
    (∀ s, deserialize_corner_radius (JValue.str s) = none) ∧
    (∀ o, deserialize_corner_radius (JValue.obj o) = none) ∧
    cornerRadiusField [] = some none ∧
    (∀ o, (cornerRadiusField o).isSome) := by
  refine ⟨fun q => rfl, fun a b c d => rfl, ?_, rfl, fun b => rfl, fun s => rfl,
    fun o => rfl, rfl, ?_⟩
  · intro xs hxs
    rcases xs with _ | ⟨a, _ | ⟨b, _ | ⟨c, _ | ⟨d, _ | ⟨e, tl⟩⟩⟩⟩⟩
    · rfl
    · rfl
    · rfl
    · rfl
    · exact absurd rfl hxs
    · rfl
  · intro o
    unfold cornerRadiusField
    rcases h : jLookup o "cornerRadius" with _ | v <;> rfl

/-- C6 witness: the spec's four probes — `10` is uniform, `[1,2,3,4]` is
positional, `[1,2,3]` yields `None`, an absent field yields `None`. -/
theorem corner_radius_decoding_witness :
    deserialize_corner_radius (JValue.num 10) = some (RectangularCornerRadius.all 10) ∧
    deserialize_corner_radius
        (JValue.arr [JValue.num 1, JValue.num 2, JValue.num 3, JValue.num 4]) =
      some ⟨1, 2, 3, 4⟩ ∧
    deserialize_corner_radius (JValue.arr [JValue.num 1, JValue.num 2, JValue.num 3]) =
      none ∧
    cornerRadiusField [] = some none :=
  ⟨corner_radius_decoding.1 10, corner_radius_decoding.2.1 1 2 3 4,
   corner_radius_decoding.2.2.1 [JValue.num 1, JValue.num 2, JValue.num 3] (by simp),
   corner_radius_decoding.2.2.2.2.2.2.2.1⟩

/-! ## Claim C7 -/

/-- C7 (amended): whenever conversion produces a canonical node from a
recognized-kind intermediate node, the canonical node's identifier equals the
source identifier verbatim; a node of unrecognized kind, however, is
re-keyed: deserialization discards its payload (identifier included) and
conversion assigns the fixed identifier "unknown". -/
theorem conversion_preserves_id (node : IONode) (i : String) (n : Node)
    (hid : node.sourceId = some i) (hconv : nodeFromIONode node = some n) :
    n.id = i := by
  cases node with
  | Container c =>
    have h := Option.some.inj hconv
    subst h
    simpa [Node.id, containerNodeFromIOContainerNode, IONode.sourceId] using hid
  | Text t =>
    have h := Option.some.inj hconv
    subst h
    simpa [Node.id, textSpanNodeFromIOTextNode, IONode.sourceId] using hid
  | Vector v =>
    have h := Option.some.inj hconv
    subst h
    simpa [Node.id, nodeFromIOVectorNode, IONode.sourceId] using hid
  | Path p =>
    simp only [nodeFromIONode, nodeFromIOPathNode] at hconv
    rcases hpd : pathNodeData p.vector_network with _ | cmds
    · rw [hpd] at hconv
      cases hconv
    · rw [hpd] at hconv
      have h := Option.some.inj hconv
      subst h
      simpa [Node.id, IONode.sourceId] using hid
  | Ellipse e =>
    have h := Option.some.inj hconv
    subst h
    simpa [Node.id, nodeFromIOEllipseNode, IONode.sourceId] using hid
  | Rectangle r =>
    have h := Option.some.inj hconv
    subst h
    simpa [Node.id, nodeFromIORectangleNode, IONode.sourceId] using hid
  | Unknown => cases hid

/-- C7 counterexample: a "sticky-note" node carrying source identifier
"node-7" deserializes to the `Unknown` placeholder and converts to a node
whose identifier is the fixed string "unknown", not "node-7". -/
theorem conversion_preserves_id_cx :
    decodeIONode (JValue.obj stickyNoteObj) = some IONode.Unknown ∧
    (nodeFromIONode IONode.Unknown).map Node.id = some "unknown" ∧
    ("unknown" : String) ≠ "node-7" :=
  ⟨rfl, rfl, by decide⟩

/-- C7 witness: a concrete rectangle keeps its identifier "r9". -/
theorem conversion_preserves_id_witness :
    (IONode.Rectangle rectExample).sourceId = some "r9" ∧
    (nodeFromIONode (IONode.Rectangle rectExample)).map Node.id = some "r9" := by
  refine ⟨rfl, ?_⟩
  have h := conversion_preserves_id (IONode.Rectangle rectExample) "r9"
    (nodeFromIORectangleNode rectExample) rfl rfl
  rw [show nodeFromIONode (IONode.Rectangle rectExample) =
    some (nodeFromIORectangleNode rectExample) from rfl]
  simp [h]

/-! ## Claim C8 -/

/-- C8: `FontWeight::new` carries every value in [1, 1000] through unchanged,
and for every value outside [1, 1000] construction is a fatal abort
(modelled `none`), not a recoverable error value. -/
theorem font_weight_new_range (value : ℕ) :
    (1 ≤ value ∧ value ≤ 1000 → FontWeight.new value = some ⟨value⟩) ∧
    (value < 1 ∨ 1000 < value → FontWeight.new value = none) := by
  constructor
  · intro h
    unfold FontWeight.new
    rw [if_pos h]
  · intro h
    unfold FontWeight.new
    rw [if_neg (by omega)]

/-- C8 witness: 400 is accepted and carried; 1001 aborts. -/
theorem font_weight_new_range_witness :
    FontWeight.new 400 = some ⟨400⟩ ∧ FontWeight.new 1001 = none :=
  ⟨(font_weight_new_range 400).1 (by decide), (font_weight_new_range 1001).2 (by decide)⟩

/-! ## Claim C9 -/

/-- C9 (amended): every factory node has an empty name, `active = true`,
opacity 1, `Normal` blend mode and no filter effect; size is 100×100 except
`Line` (100×0) and `TextSpan` (100×20); the fill, where present, is opaque
white solid except `TextSpan`'s, which is opaque black; the stroke, where a
paint is present, is opaque black solid with width 1.0 and `Inside`
alignment, but `Container` and `TextSpan` carry no stroke paint and
`TextSpan` no stroke width. -/
theorem node_factory_defaults (id : String) :
    (NodeFactory.create_rectangle_node id).base.name = "" ∧
    (NodeFactory.create_rectangle_node id).base.active = true ∧
    (NodeFactory.create_rectangle_node id).size = ⟨100, 100⟩ ∧
    (NodeFactory.create_rectangle_node id).fill =
      Paint.Solid ⟨⟨255, 255, 255, 255⟩, 1⟩ ∧
    (NodeFactory.create_rectangle_node id).stroke =
      Paint.Solid ⟨⟨0, 0, 0, 255⟩, 1⟩ ∧
    (NodeFactory.create_rectangle_node id).stroke_width = 1 ∧
    (NodeFactory.create_rectangle_node id).stroke_align = StrokeAlign.Inside ∧
    (NodeFactory.create_rectangle_node id).opacity = 1 ∧
    (NodeFactory.create_rectangle_node id).blend_mode = BlendMode.Normal ∧
    (NodeFactory.create_rectangle_node id).effect = none ∧
    (NodeFactory.create_ellipse_node id).base.name = "" ∧
    (NodeFactory.create_ellipse_node id).base.active = true ∧
    (NodeFactory.create_ellipse_node id).size = ⟨100, 100⟩ ∧
    (NodeFactory.create_ellipse_node id).fill =
      Paint.Solid ⟨⟨255, 255, 255, 255⟩, 1⟩ ∧
    (NodeFactory.create_ellipse_node id).stroke =
      Paint.Solid ⟨⟨0, 0, 0, 255⟩, 1⟩ ∧
    (NodeFactory.create_ellipse_node id).stroke_width = 1 ∧
    (NodeFactory.create_ellipse_node id).stroke_align = StrokeAlign.Inside ∧
    (NodeFactory.create_ellipse_node id).opacity = 1 ∧
    (NodeFactory.create_ellipse_node id).blend_mode = BlendMode.Normal ∧
    (NodeFactory.create_ellipse_node id).effect = none ∧
    (NodeFactory.create_line_node id).base.name = "" ∧
    (NodeFactory.create_line_node id).base.active = true ∧
    (NodeFactory.create_line_node id).size = ⟨100, 0⟩ ∧
    (NodeFactory.create_line_node id).stroke =
      Paint.Solid ⟨⟨0, 0, 0, 255⟩, 1⟩ ∧
    (NodeFactory.create_line_node id).stroke_width = 1 ∧
    (NodeFactory.create_line_node id)._data_stroke_align = StrokeAlign.Inside ∧
    (NodeFactory.create_line_node id).opacity = 1 ∧
    (NodeFactory.create_line_node id).blend_mode = BlendMode.Normal ∧
    (NodeFactory.create_text_span_node id).base.name = "" ∧
    (NodeFactory.create_text_span_node id).base.active = true ∧
    (NodeFactory.create_text_span_node id).size = ⟨100, 20⟩ ∧
    (NodeFactory.create_text_span_node id).fill =
      Paint.Solid ⟨⟨0, 0, 0, 255⟩, 1⟩ ∧
    (NodeFactory.create_text_span_node id).stroke = none ∧
    (NodeFactory.create_text_span_node id).stroke_width = none ∧
    (NodeFactory.create_text_span_node id).stroke_align = StrokeAlign.Inside ∧
    (NodeFactory.create_text_span_node id).opacity = 1 ∧
    (NodeFactory.create_text_span_node id).blend_mode = BlendMode.Normal ∧
    (NodeFactory.create_group_node id).base.name = "" ∧
    (NodeFactory.create_group_node id).base.active = true ∧
    (NodeFactory.create_group_node id).opacity = 1 ∧
    (NodeFactory.create_group_node id).blend_mode = BlendMode.Normal ∧
    (NodeFactory.create_container_node id).base.name = "" ∧
    (NodeFactory.create_container_node id).base.active = true ∧
    (NodeFactory.create_container_node id).size = ⟨100, 100⟩ ∧
    (NodeFactory.create_container_node id).fill =
      Paint.Solid ⟨⟨255, 255, 255, 255⟩, 1⟩ ∧
    (NodeFactory.create_container_node id).stroke = none ∧
    (NodeFactory.create_container_node id).stroke_width = 1 ∧
    (NodeFactory.create_container_node id).stroke_align = StrokeAlign.Inside ∧
    (NodeFactory.create_container_node id).opacity = 1 ∧
    (NodeFactory.create_container_node id).blend_mode = BlendMode.Normal ∧
    (NodeFactory.create_container_node id).effect = none ∧
    (NodeFactory.create_path_node id).base.name = "" ∧
    (NodeFactory.create_path_node id).base.active = true ∧
    (NodeFactory.create_path_node id).fill =
      Paint.Solid ⟨⟨255, 255, 255, 255⟩, 1⟩ ∧
    (NodeFactory.create_path_node id).stroke =
      Paint.Solid ⟨⟨0, 0, 0, 255⟩, 1⟩ ∧
    (NodeFactory.create_path_node id).stroke_width = 1 ∧
    (NodeFactory.create_path_node id).stroke_align = StrokeAlign.Inside ∧
    (NodeFactory.create_path_node id).opacity = 1 ∧
    (NodeFactory.create_path_node id).blend_mode = BlendMode.Normal ∧
    (NodeFactory.create_path_node id).effect = none ∧
    (NodeFactory.create_regular_polygon_node id).base.name = "" ∧
    (NodeFactory.create_regular_polygon_node id).base.active = true ∧
    (NodeFactory.create_regular_polygon_node id).size = ⟨100, 100⟩ ∧
    (NodeFactory.create_regular_polygon_node id).fill =
      Paint.Solid ⟨⟨255, 255, 255, 255⟩, 1⟩ ∧
    (NodeFactory.create_regular_polygon_node id).stroke =
      Paint.Solid ⟨⟨0, 0, 0, 255⟩, 1⟩ ∧
    (NodeFactory.create_regular_polygon_node id).stroke_width = 1 ∧
    (NodeFactory.create_regular_polygon_node id).stroke_align = StrokeAlign.Inside ∧
    (NodeFactory.create_regular_polygon_node id).opacity = 1 ∧
    (NodeFactory.create_regular_polygon_node id).blend_mode = BlendMode.Normal ∧
    (NodeFactory.create_regular_polygon_node id).effect = none ∧
    (NodeFactory.create_regular_star_polygon_node id).base.name = "" ∧
    (NodeFactory.create_regular_star_polygon_node id).base.active = true ∧
    (NodeFactory.create_regular_star_polygon_node id).size = ⟨100, 100⟩ ∧
    (NodeFactory.create_regular_star_polygon_node id).fill =
      Paint.Solid ⟨⟨255, 255, 255, 255⟩, 1⟩ ∧
    (NodeFactory.create_regular_star_polygon_node id).stroke =
      Paint.Solid ⟨⟨0, 0, 0, 255⟩, 1⟩ ∧
    (NodeFactory.create_regular_star_polygon_node id).stroke_width = 1 ∧
    (NodeFactory.create_regular_star_polygon_node id).stroke_align =
      StrokeAlign.Inside ∧
    (NodeFactory.create_regular_star_polygon_node id).opacity = 1 ∧
    (NodeFactory.create_regular_star_polygon_node id).blend_mode = BlendMode.Normal ∧
    (NodeFactory.create_regular_star_polygon_node id).effect = none ∧
    (NodeFactory.create_polygon_node id).base.name = "" ∧
    (NodeFactory.create_polygon_node id).base.active = true ∧
    (NodeFactory.create_polygon_node id).points = [] ∧
    (NodeFactory.create_polygon_node id).fill =
      Paint.Solid ⟨⟨255, 255, 255, 255⟩, 1⟩ ∧
    (NodeFactory.create_polygon_node id).stroke =
      Paint.Solid ⟨⟨0, 0, 0, 255⟩, 1⟩ ∧
    (NodeFactory.create_polygon_node id).stroke_width = 1 ∧
    (NodeFactory.create_polygon_node id).stroke_align = StrokeAlign.Inside ∧
    (NodeFactory.create_polygon_node id).opacity = 1 ∧
    (NodeFactory.create_polygon_node id).blend_mode = BlendMode.Normal ∧
    (NodeFactory.create_polygon_node id).effect = none ∧
    (NodeFactory.create_image_node id).base.name = "" ∧
    (NodeFactory.create_image_node id).base.active = true ∧
    (NodeFactory.create_image_node id).size = ⟨100, 100⟩ ∧
    (NodeFactory.create_image_node id).fill =
      Paint.Solid ⟨⟨255, 255, 255, 255⟩, 1⟩ ∧
    (NodeFactory.create_image_node id).stroke =
      Paint.Solid ⟨⟨0, 0, 0, 255⟩, 1⟩ ∧
    (NodeFactory.create_image_node id).stroke_width = 1 ∧
    (NodeFactory.create_image_node id).stroke_align = StrokeAlign.Inside ∧
    (NodeFactory.create_image_node id).opacity = 1 ∧
    (NodeFactory.create_image_node id).blend_mode = BlendMode.Normal ∧
    (NodeFactory.create_image_node id).effect = none := by
  repeat' apply And.intro
  all_goals rfl

/-- C9 counterexample: the factory's text-span node measures 100×20 rather
than 100×100, its fill is opaque black rather than white, and it carries no
stroke paint and no stroke width; the container node also carries no stroke
paint. -/
theorem node_factory_defaults_cx :
    (NodeFactory.create_text_span_node "t").size = ⟨100, 20⟩ ∧
    (NodeFactory.create_text_span_node "t").size.height ≠ 100 ∧
    (NodeFactory.create_text_span_node "t").fill = Paint.Solid ⟨⟨0, 0, 0, 255⟩, 1⟩ ∧
    Paint.Solid (⟨⟨0, 0, 0, 255⟩, 1⟩ : SolidPaint) ≠
      Paint.Solid ⟨⟨255, 255, 255, 255⟩, 1⟩ ∧
    (NodeFactory.create_text_span_node "t").stroke = none ∧
    (NodeFactory.create_text_span_node "t").stroke_width = none ∧
    (NodeFactory.create_container_node "c").stroke = none :=
  ⟨rfl, by decide, rfl, by decide, rfl, rfl, rfl⟩

end Grida
